import Mathlib

/-!
Verification of the MDVRPTW-to-MDHF-VRPTW-SPD instance transformation
(`transform_instances.py`).  The script's single function
`transform_instance_to_json` is shallowly embedded here: Python floats are
modelled as exact rationals `ℚ`, Python ints as `ℤ`, text tokens as values
that may or may not convert via `int()` / `float()`, the global seeded
random stream as an explicit list of uniform draws in `[0,1)`, and raised
exceptions as `Except` errors.  The JSON document written at the end is
modelled by the `InstanceDoc` structure; a run that raises writes nothing,
which corresponds to `Except.error`.
-/

namespace MDHF

unseal Rat.mul Rat.inv Rat.add Rat.sub Rat.ofScientific

/-! ### Python numeric primitives -/

/-- Round-half-to-even of a rational to an integer, the tie-breaking rule of
Python's builtin `round`. -/
def halfEven (q : ℚ) : ℤ :=
  let f := q - ⌊q⌋
  if f < 1/2 then ⌊q⌋
  else if 1/2 < f then ⌊q⌋ + 1
  else if Even ⌊q⌋ then ⌊q⌋ else ⌊q⌋ + 1

/-- Python's `round(x, 1)`: round to one decimal place, ties to even. -/
def pyRound1 (q : ℚ) : ℚ := (halfEven (10 * q) : ℚ) / 10

/-- Python's `int(x)` on a float: truncation toward zero. -/
def pyTrunc (q : ℚ) : ℤ := if 0 ≤ q then ⌊q⌋ else ⌈q⌉

/-- Python list indexing `xs[i]`: negative indices address from the end;
`none` models an `IndexError`. -/
def pyGet {α : Type} (xs : List α) (i : ℤ) : Option α :=
  let n : ℤ := xs.length
  let j := if i < 0 then i + n else i
  if 0 ≤ j ∧ j < n then xs.get? j.toNat else none

/-- Python's `range(a, b)` as a list of integers. -/
def pyRange (a b : ℤ) : List ℤ := (List.range (b - a).toNat).map (fun k : ℕ => a + (k : ℤ))

/-- Model of `random.randint(lo, hi)` fed by one uniform draw `u ∈ [0,1)`
from the seeded stream: a uniform integer in `[lo, hi]`.  The script's only
use is `randint(1, k)` with `k ∈ [1,3]`; the model keeps the facts the
script relies on: the result lies in `[lo, hi]` (for `u ∈ [0,1)` and
`lo ≤ hi`) and exactly one draw of the stream is consumed. -/
def pyRandint (lo hi : ℤ) (u : ℚ) : ℤ := lo + ⌊u * ((hi - lo + 1 : ℤ) : ℚ)⌋

/-! ### Tokens and parse errors -/

/-- A whitespace-separated token of the input file.  `asInt`/`asFloat` are
the results of Python's `int(tok)` / `float(tok)`; `none` models the
`ValueError` raised on a failed conversion. -/
structure Token where
  asInt : Option ℤ
  asFloat : Option ℚ
deriving DecidableEq

/-- A token holding an integer literal (accepted by both `int` and `float`). -/
def tInt (n : ℤ) : Token := ⟨some n, some n⟩

/-- A token holding a non-integral numeric literal (rejected by `int`,
accepted by `float`). -/
def tFloat (q : ℚ) : Token := ⟨none, some q⟩

/-- A token that is not numeric at all (rejected by both conversions). -/
def tBad : Token := ⟨none, none⟩

/-- Exceptions the transformation can raise.  The three `line*` constructors
are the `ValueError`s raised explicitly in the customer loop and carry the
offending line index (and its raw tokens) that the script reports;
`indexErr` / `valueErr` are the bare `IndexError` / `ValueError` escaping
from the header, depot and depot-coordinate sections. -/
inductive PyErr where
  | indexErr
  | valueErr
  | lineMissing (i : ℤ) (total : ℕ)
  | lineShort (i : ℤ) (tks : List Token)
  | lineFormat (i : ℤ) (tks : List Token)
deriving DecidableEq

instance {ε α : Type} [DecidableEq ε] [DecidableEq α] : DecidableEq (Except ε α) := fun a b =>
  match a, b with
  | .ok x, .ok y =>
    if h : x = y then .isTrue (by rw [h]) else .isFalse (fun hc => h (Except.ok.inj hc))
  | .error x, .error y =>
    if h : x = y then .isTrue (by rw [h]) else .isFalse (fun hc => h (Except.error.inj hc))
  | .ok _, .error _ => .isFalse (fun hc => Except.noConfusion hc)
  | .error _, .ok _ => .isFalse (fun hc => Except.noConfusion hc)

/-- Python's `enumerate` loop: map with the running index. -/
def mapWithIdx {α β : Type} (f : ℕ → α → β) : ℕ → List α → List β
  | _, [] => []
  | i, a :: as => f i a :: mapWithIdx f (i + 1) as

/-- Monadic map on `Except`, the embedding of a Python `for` loop that
appends to a list and lets exceptions escape. -/
def exMapM {α β : Type} (f : α → Except PyErr β) : List α → Except PyErr (List β)
  | [] => .ok []
  | x :: xs => do
    let y ← f x
    let ys ← exMapM f xs
    .ok (y :: ys)

/-! ### Parsed records -/

/-- A parsed customer line (`RawCustomerRecord`). -/
structure Customer where
  id : ℤ
  x : ℚ
  y : ℚ
  service_time : ℚ
  demand : ℤ
  tw_start : ℤ
  tw_end : ℤ
deriving DecidableEq

instance : Inhabited Customer := ⟨⟨0, 0, 0, 0, 0, 0, 0⟩⟩

/-- Default customer used with `List.getD`. -/
def cDflt : Customer := default

/-- Everything the parsing phase of `transform_instance_to_json` produces. -/
structure ParsedData where
  vrpType : ℤ
  numVehicles : ℤ
  numCustomers : ℤ
  numDepots : ℤ
  depotInfo : List (ℤ × ℤ)
  customers : List Customer
  depotCoords : List (ℤ × ℚ × ℚ)
deriving DecidableEq

/-! ### The parser -/

/-- Fetch `lines[i]`; a missing line is an `IndexError`. -/
def lineAt (lines : List (List Token)) (i : ℤ) : Except PyErr (List Token) :=
  match pyGet lines i with
  | some l => .ok l
  | none => .error .indexErr

/-- Python `int(tks[j])`: `IndexError` if the token is missing, `ValueError`
if it does not convert. -/
def tokIntAt (tks : List Token) (j : ℤ) : Except PyErr ℤ :=
  match pyGet tks j with
  | some t => match t.asInt with
    | some n => .ok n
    | none => .error .valueErr
  | none => .error .indexErr

/-- Python `float(tks[j])`. -/
def tokFloatAt (tks : List Token) (j : ℤ) : Except PyErr ℚ :=
  match pyGet tks j with
  | some t => match t.asFloat with
    | some q => .ok q
    | none => .error .valueErr
  | none => .error .indexErr

/-- Parse the header line `vrp_type num_vehicles num_customers num_depots`. -/
def parseHeader (lines : List (List Token)) : Except PyErr (ℤ × ℤ × ℤ × ℤ) := do
  let l0 ← lineAt lines 0
  let vrp_type ← tokIntAt l0 0
  let num_vehicles ← tokIntAt l0 1
  let num_customers ← tokIntAt l0 2
  let num_depots ← tokIntAt l0 3
  .ok (vrp_type, num_vehicles, num_customers, num_depots)

/-- Parse depot line `i`: `duration capacity`. -/
def parseDepotAt (lines : List (List Token)) (i : ℤ) : Except PyErr (ℤ × ℤ) := do
  let l ← lineAt lines i
  let duration ← tokIntAt l 0
  let capacity ← tokIntAt l 1
  .ok (duration, capacity)

/-- Python `max(depot[0] for depot in depot_info)`; `none` is the
`ValueError` on an empty sequence. -/
def maxDur (depot_info : List (ℤ × ℤ)) : Option ℤ :=
  match depot_info.map Prod.fst with
  | [] => none
  | d :: ds => some (ds.foldl max d)

/-- The body of the `try` block of the customer loop: extract id,
coordinates, service time, demand, and the time window (native for type-6
instances, synthesized `[0, maxDepotDuration]` otherwise, `1000` if all
depot durations are `≤ 0`). -/
def parseCustomerBody (tks : List Token) (hasTW : Bool) (depot_info : List (ℤ × ℤ)) :
    Except PyErr Customer := do
  let customer_id ← tokIntAt tks 0
  let x ← tokFloatAt tks 1
  let y ← tokFloatAt tks 2
  let service_time ← tokFloatAt tks 3
  let demand ← tokIntAt tks 4
  if hasTW then
    let tws ← tokIntAt tks (-2)
    let twe ← tokIntAt tks (-1)
    .ok ⟨customer_id, x, y, service_time, demand, tws, twe⟩
  else
    match maxDur depot_info with
    | none => .error .valueErr
    | some md => .ok ⟨customer_id, x, y, service_time, demand, 0, if 0 < md then md else 1000⟩

/-- Parse customer line `i`, with the script's explicit guards: a missing
line and a line with fewer than 5 tokens raise immediately; any failure
inside the `try` block is reported with the line index and raw tokens and
re-raised (`lineFormat`). -/
def parseCustomerAt (lines : List (List Token)) (hasTW : Bool) (depot_info : List (ℤ × ℤ))
    (i : ℤ) : Except PyErr Customer :=
  if (lines.length : ℤ) ≤ i then .error (.lineMissing i lines.length)
  else match pyGet lines i with
    | none => .error .indexErr
    | some tks =>
      if tks.length < 5 then .error (.lineShort i tks)
      else match parseCustomerBody tks hasTW depot_info with
        | .ok c => .ok c
        | .error _ => .error (.lineFormat i tks)

/-- Parse depot-coordinate line `i`: if the line does not exist the script
only warns and continues (`none`); if it exists its three tokens must
convert. -/
def parseCoordAt (lines : List (List Token)) (i : ℤ) : Except PyErr (Option (ℤ × ℚ × ℚ)) :=
  if i < (lines.length : ℤ) then do
    let l ← lineAt lines i
    let depot_id ← tokIntAt l 0
    let x ← tokFloatAt l 1
    let y ← tokFloatAt l 2
    .ok (some (depot_id, x, y))
  else .ok none

/-- The whole parsing phase of `transform_instance_to_json` (lines 59-137 of
the script). -/
def parseStage (lines : List (List Token)) : Except PyErr ParsedData := do
  let (vrp_type, num_vehicles, num_customers, num_depots) ← parseHeader lines
  let depot_info ← exMapM (parseDepotAt lines) (pyRange 1 (num_depots + 1))
  let has_time_windows := vrp_type == 6
  let customers ← exMapM (parseCustomerAt lines has_time_windows depot_info)
      (pyRange (num_depots + 1) (num_depots + num_customers + 1))
  let coords ← exMapM (parseCoordAt lines)
      (pyRange (num_depots + num_customers + 1) (num_depots + num_customers + num_depots + 1))
  .ok ⟨vrp_type, num_vehicles, num_customers, num_depots, depot_info, customers,
       coords.filterMap id⟩

/-! ### Configuration constants of the script -/

def PICKUP_HANDLING_FACTOR : ℚ := 1/2

def BASE_OPERATION_TIME_FACTOR : ℚ := 1/5

def CATEGORY_A_THRESHOLD : ℚ := 70/100

def CATEGORY_B_THRESHOLD : ℚ := 90/100

def CATEGORY_A_PICKUP_MIN : ℚ := 5/100

def CATEGORY_A_PICKUP_MAX : ℚ := 20/100

def CATEGORY_B_PICKUP_MIN : ℚ := 20/100

def CATEGORY_B_PICKUP_MAX : ℚ := 50/100

/-- One entry of the static `VEHICLE_CLASSES` table. -/
structure VehicleTemplate where
  name : String
  descr : String
  capacity_factor : ℚ
  fixed_cost : ℚ
  variable_cost : ℚ
deriving DecidableEq

instance : Inhabited VehicleTemplate := ⟨⟨"", "", 0, 0, 0⟩⟩

def VEHICLE_CLASSES : List VehicleTemplate :=
  [⟨"Class1", "Cargo bike/micro-EV", 25/100, 60, 45/100⟩,
   ⟨"Class2", "Small van (1 t)", 50/100, 120, 60/100⟩,
   ⟨"Class3", "Large van (2 t)", 80/100, 180, 75/100⟩,
   ⟨"Class4", "7.5-t truck", 120/100, 240, 90/100⟩]

/-! ### The seeded random stream -/

/-- The global seeded random stream: the successive uniform draws in `[0,1)`
that `random.random()` (and, via `pyRandint`, `random.randint`) returns. -/
abbrev RNG : Type := List ℚ

/-- Take one draw from the stream. -/
def rand : RNG → ℚ × RNG
  | [] => (0, [])
  | u :: s => (u, s)

/-- The draws of a seeded stream are uniform values in `[0,1)`. -/
def ValidRNG (s : RNG) : Prop := ∀ u ∈ s, 0 ≤ u ∧ u < 1

instance (s : RNG) : Decidable (ValidRNG s) :=
  inferInstanceAs (Decidable (∀ u ∈ s, 0 ≤ u ∧ u < 1))

/-! ### Customer augmentation -/

/-- The three synthetic demand categories. -/
inductive Category where
  | A
  | B
  | C
deriving DecidableEq

instance : Inhabited Category := ⟨.A⟩

/-- Categorization of one customer from its draw `u` (lines 146-153). -/
def categoryOf (u : ℚ) : Category :=
  if u < CATEGORY_A_THRESHOLD then .A
  else if u < CATEGORY_B_THRESHOLD then .B
  else .C

/-- First augmentation pass (lines 144-153): draw one categorization value
per customer, in input order. -/
def categorizeAll : List Customer → RNG → List (Customer × Category) × RNG
  | [], s => ([], s)
  | c :: cs, s =>
    ((c, categoryOf (rand s).1) :: (categorizeAll cs (rand s).2).1,
     (categorizeAll cs (rand s).2).2)

/-- Smallest vehicle capacity (line 156):
`min(depot_info, key=λx. x[1])[1] * VEHICLE_CLASSES[0]['capacity_factor']`;
`min` of an empty sequence raises. -/
def smallestVehicleCapacity (depot_info : List (ℤ × ℤ)) : Except PyErr ℚ :=
  match depot_info with
  | [] => .error .valueErr
  | d :: ds =>
    .ok ((((ds.map Prod.snd).foldl min d.2 : ℤ) : ℚ) *
      (VEHICLE_CLASSES.getD 0 default).capacity_factor)

/-- Mean original demand over all customers (line 175). -/
def avgDemand (cs : List Customer) : ℚ :=
  (((cs.map (fun c => c.demand)).sum : ℤ) : ℚ) / (cs.length : ℚ)

def pickup_factor_A (u : ℚ) : ℚ :=
  CATEGORY_A_PICKUP_MIN + u * (CATEGORY_A_PICKUP_MAX - CATEGORY_A_PICKUP_MIN)

def pickup_factor_B (u : ℚ) : ℚ :=
  CATEGORY_B_PICKUP_MIN + u * (CATEGORY_B_PICKUP_MAX - CATEGORY_B_PICKUP_MIN)

/-- Quantity synthesis for one customer before the capacity clamp
(lines 159-177), from its category, original demand, the instance's mean
demand, and the customer's one quantity draw `u`. -/
def rawQuantities (cat : Category) (demand : ℤ) (avg : ℚ) (u : ℚ) : ℤ × ℤ :=
  match cat with
  | .A => (demand, ⌈pickup_factor_A u * (demand : ℚ)⌉)
  | .B => (demand, ⌈pickup_factor_B u * (demand : ℚ)⌉)
  | .C => (0, pyRandint 1 (min 3 (max 1 ⌈avg * (15/100)⌉)) u)

/-- A customer with category and quantities assigned. -/
structure QCustomer where
  base : Customer
  category : Category
  delivery_qty : ℤ
  pickup_qty : ℤ
deriving DecidableEq

/-- Quantity synthesis plus the capacity clamp (lines 158-185) for one
customer. -/
def quantifyOne (avg cap : ℚ) (cc : Customer × Category) (u : ℚ) : QCustomer :=
  let delivery_qty := (rawQuantities cc.2 cc.1.demand avg u).1
  let pq := (rawQuantities cc.2 cc.1.demand avg u).2
  let pickup_qty :=
    if cap < (delivery_qty : ℚ) + (pq : ℚ) then max 1 (pyTrunc (cap - (delivery_qty : ℚ)))
    else pq
  ⟨cc.1, cc.2, delivery_qty, pickup_qty⟩

/-- Second augmentation pass (lines 158-185): one quantity draw per
customer, in input order. -/
def quantifyAll (avg cap : ℚ) : List (Customer × Category) → RNG → List QCustomer × RNG
  | [], s => ([], s)
  | cc :: rest, s =>
    (quantifyOne avg cap cc (rand s).1 :: (quantifyAll avg cap rest (rand s).2).1,
     (quantifyAll avg cap rest (rand s).2).2)

/-- Service-time decomposition (lines 188-216): returns the un-rounded
`(delivery_service_time, pickup_service_time)`. -/
def serviceSplit (S : ℚ) (delivery_qty pickup_qty : ℤ) : ℚ × ℚ :=
  let base_time := max (min (S * BASE_OPERATION_TIME_FACTOR) 1) (1/2)
  if 0 < delivery_qty ∧ 0 < pickup_qty then
    let total_qty : ℚ := (delivery_qty : ℚ) + (pickup_qty : ℚ)
    (base_time + (S - 2 * base_time) * ((delivery_qty : ℚ) / total_qty),
     base_time + (S - 2 * base_time) * ((pickup_qty : ℚ) / total_qty) +
       PICKUP_HANDLING_FACTOR * (pickup_qty : ℚ))
  else if 0 < delivery_qty then (S, 0)
  else (0, S + PICKUP_HANDLING_FACTOR * (pickup_qty : ℚ))

/-- Time-window repair (lines 227-229): widen the end just enough when the
un-rounded total service time no longer fits. -/
def repairEnd (tws twe : ℤ) (total : ℚ) : ℤ :=
  if (twe : ℚ) < (tws : ℚ) + total then ⌈(tws : ℚ) + total⌉ else twe

/-- A fully augmented customer: rounded service times, the un-rounded total
(still needed by the time-window check), and the repaired window end. -/
structure SCustomer where
  base : Customer
  category : Category
  delivery_qty : ℤ
  pickup_qty : ℤ
  delivery_service_time : ℚ
  pickup_service_time : ℚ
  new_service_time : ℚ
  rawTotal : ℚ
  tw_end_final : ℤ
deriving DecidableEq

/-- Service-time adjustment and time-window repair for one customer
(lines 188-229). -/
def serviceOne (qc : QCustomer) : SCustomer :=
  let S := qc.base.service_time
  let dp := serviceSplit S qc.delivery_qty qc.pickup_qty
  let total_service_time := dp.1 + dp.2
  { base := qc.base
    category := qc.category
    delivery_qty := qc.delivery_qty
    pickup_qty := qc.pickup_qty
    delivery_service_time := pyRound1 dp.1
    pickup_service_time := pyRound1 dp.2
    new_service_time := pyRound1 total_service_time
    rawTotal := total_service_time
    tw_end_final := repairEnd qc.base.tw_start qc.base.tw_end total_service_time }

/-! ### The output document -/

/-- One entry of a depot's `vehicles` array. -/
structure OutVehicle where
  typeId : String
  capacity : ℤ
  count : String
  maxDuration : ℤ
deriving DecidableEq

instance : Inhabited OutVehicle := ⟨⟨"", 0, "", 0⟩⟩

/-- One entry of the `depots` array. -/
structure OutDepot where
  id : ℤ
  x : ℚ
  y : ℚ
  maxDuration : ℤ
  vehicles : List OutVehicle
deriving DecidableEq

instance : Inhabited OutDepot := ⟨⟨0, 0, 0, 0, []⟩⟩

/-- One entry of the `vehicleTypes` array. -/
structure OutVehicleType where
  id : String
  name : String
  description : String
  capacityFactor : ℚ
  fixedCost : ℚ
  variableCost : ℚ
deriving DecidableEq

/-- One entry of the `customers` array. -/
structure OutCustomer where
  id : ℤ
  x : ℚ
  y : ℚ
  TotalServiceTime : ℚ
  deliveryServiceTime : ℚ
  pickupServiceTime : ℚ
  deliveryQuantity : ℤ
  pickupQuantity : ℤ
  category : Category
  twStart : ℤ
  twEnd : ℤ
deriving DecidableEq

instance : Inhabited OutCustomer := ⟨⟨0, 0, 0, 0, 0, 0, 0, 0, .A, 0, 0⟩⟩

/-- The `metadata.statistics` object; `none` models the `"N/A"` sentinel. -/
structure Statistics where
  nb_DeliveryWithLowReturn : ℕ
  nb_DeliveryWithSignificantReturn : ℕ
  nb_ReturnOnly : ℕ
  totalDeliveryQuantity : ℤ
  totalPickupQuantity : ℤ
  pickupToDeliveryRatio : Option ℚ
deriving DecidableEq

/-- The `metadata` object (the instance-name string, derived from the input
file name, is peripheral I/O and not modelled). -/
structure Metadata where
  randomSeed : ℕ
  customerCount : ℤ
  depotCount : ℤ
  statistics : Statistics
deriving DecidableEq

/-- The assembled JSON document. -/
structure InstanceDoc where
  metadata : Metadata
  vehicleTypes : List OutVehicleType
  depots : List OutDepot
  customers : List OutCustomer
deriving DecidableEq

instance : Inhabited InstanceDoc :=
  ⟨⟨⟨0, 0, 0, ⟨0, 0, 0, 0, 0, none⟩⟩, [], [], []⟩⟩

/-- The emitted customer record (lines 300-315). -/
def outOf (sc : SCustomer) : OutCustomer :=
  { id := sc.base.id
    x := sc.base.x
    y := sc.base.y
    TotalServiceTime := sc.new_service_time
    deliveryServiceTime := sc.delivery_service_time
    pickupServiceTime := sc.pickup_service_time
    deliveryQuantity := sc.delivery_qty
    pickupQuantity := sc.pickup_qty
    category := sc.category
    twStart := sc.base.tw_start
    twEnd := sc.tw_end_final }

/-- Count the customers of one category. -/
def categoryCount (c : Category) (scs : List SCustomer) : ℕ :=
  (scs.filter (fun s => decide (s.category = c))).length

/-- The statistics block (lines 231-255). -/
def buildStats (scs : List SCustomer) : Statistics :=
  let total_delivery := (scs.map (fun s => s.delivery_qty)).sum
  let total_pickup := (scs.map (fun s => s.pickup_qty)).sum
  { nb_DeliveryWithLowReturn := categoryCount .A scs
    nb_DeliveryWithSignificantReturn := categoryCount .B scs
    nb_ReturnOnly := categoryCount .C scs
    totalDeliveryQuantity := total_delivery
    totalPickupQuantity := total_pickup
    pickupToDeliveryRatio :=
      if 0 < total_delivery then
        some (pyRound1 ((total_pickup : ℚ) / (total_delivery : ℚ) * 100))
      else none }

/-- The `vehicleTypes` array (lines 263-271). -/
def buildVehicleTypes : List OutVehicleType :=
  mapWithIdx (fun i vc =>
    ⟨"Type" ++ toString (i + 1), vc.name, vc.descr, vc.capacity_factor,
      vc.fixed_cost, vc.variable_cost⟩) 0 VEHICLE_CLASSES

/-- One depot's `vehicles` array (lines 288-295): one entry per vehicle
class, capacity `floor(base * factor)`, the `"unlimited"` count sentinel,
and the depot's route duration. -/
def buildVehicles (duration base_capacity : ℤ) : List OutVehicle :=
  mapWithIdx (fun j vc =>
    ⟨"Type" ++ toString (j + 1), ⌊(base_capacity : ℚ) * vc.capacity_factor⌋,
      "unlimited", duration⟩) 0 VEHICLE_CLASSES

/-- The depot loop (lines 274-297): enumerate the parsed coordinates and
pair each with the depot record of the same index, skipping coordinates
with no matching record. -/
def buildDepotsAux (depot_info : List (ℤ × ℤ)) (i : ℕ) :
    List (ℤ × ℚ × ℚ) → List OutDepot
  | [] => []
  | c :: cs =>
    (if i < depot_info.length then
      let di := depot_info.getD i (0, 0)
      [⟨c.1, c.2.1, c.2.2, di.1, buildVehicles di.1 di.2⟩]
    else []) ++ buildDepotsAux depot_info (i + 1) cs

def buildDepots (coords : List (ℤ × ℚ × ℚ)) (depot_info : List (ℤ × ℤ)) : List OutDepot :=
  buildDepotsAux depot_info 0 coords

/-- Final document assembly (lines 242-315). -/
def assembleDoc (pd : ParsedData) (scs : List SCustomer) : InstanceDoc :=
  { metadata :=
      { randomSeed := 42
        customerCount := pd.numCustomers
        depotCount := pd.numDepots
        statistics := buildStats scs }
    vehicleTypes := buildVehicleTypes
    depots := buildDepots pd.depotCoords pd.depotInfo
    customers := scs.map outOf }

/-- The whole transformation `transform_instance_to_json`: parse, augment
with the seeded stream, assemble.  An `Except.error` result models a raised
exception, in which case no output file is written. -/
def transform_instance_to_json (lines : List (List Token)) (rng : RNG) :
    Except PyErr InstanceDoc := do
  let pd ← parseStage lines
  let catsPair := categorizeAll pd.customers rng
  let cap ← smallestVehicleCapacity pd.depotInfo
  let qsPair := quantifyAll (avgDemand pd.customers) cap catsPair.1 catsPair.2
  let scs := qsPair.1.map serviceOne
  .ok (assembleDoc pd scs)

/-! ### Derived views of the pipeline (used to state the claims) -/

/-- The complete augmentation of one customer from its two draws: `u` is its
categorization draw, `v` its quantity draw. -/
def augOne (avg cap : ℚ) (c : Customer) (u v : ℚ) : SCustomer :=
  serviceOne (quantifyOne avg cap (c, categoryOf u) v)

/-- The augmented-customer list the transformation builds from parsed data,
the random stream, and the smallest vehicle capacity. -/
def pipelineSCs (pd : ParsedData) (rng : RNG) (cap : ℚ) : List SCustomer :=
  ((quantifyAll (avgDemand pd.customers) cap (categorizeAll pd.customers rng).1
      (categorizeAll pd.customers rng).2).1).map serviceOne

/-! ### Reference semantics claimed by the spec (for refinement comparison) -/

/-- Modelled from the spec: the claimed per-customer interleaved draw order —
for each customer in input order, its categorization draw immediately
followed by its quantity-factor draw. -/
def interleaveAll (avg cap : ℚ) : List Customer → RNG → List QCustomer × RNG
  | [], s => ([], s)
  | c :: cs, s =>
    (quantifyOne avg cap (c, categoryOf (rand s).1) (rand (rand s).2).1 ::
       (interleaveAll avg cap cs (rand (rand s).2).2).1,
     (interleaveAll avg cap cs (rand (rand s).2).2).2)

/-- Modelled from the spec: the transformation as it would behave if the
draws were interleaved per customer (categorization draw, then
quantity-factor draw, customer by customer) as the spec describes. -/
def transformInterleaved (lines : List (List Token)) (rng : RNG) :
    Except PyErr InstanceDoc := do
  let pd ← parseStage lines
  let cap ← smallestVehicleCapacity pd.depotInfo
  let qsPair := interleaveAll (avgDemand pd.customers) cap pd.customers rng
  .ok (assembleDoc pd (qsPair.1.map serviceOne))

/-! ### Token-level well-formedness (the error-handling claim) -/

/-- Token `j` of a line is present and `int`-convertible. -/
def intTokOKB (l : List Token) (j : ℤ) : Bool :=
  match pyGet l j with
  | some t => t.asInt.isSome
  | none => false

/-- Token `j` of a line is present and `float`-convertible. -/
def floatTokOKB (l : List Token) (j : ℤ) : Bool :=
  match pyGet l j with
  | some t => t.asFloat.isSome
  | none => false

/-- Token `j` of a line is present but fails `int` conversion. -/
def intFailB (l : List Token) (j : ℤ) : Bool :=
  match pyGet l j with
  | some t => t.asInt.isNone
  | none => false

/-- Token `j` of a line is present but fails `float` conversion. -/
def floatFailB (l : List Token) (j : ℤ) : Bool :=
  match pyGet l j with
  | some t => t.asFloat.isNone
  | none => false

/-- The header values, read directly off the tokens. -/
def headerValsB (lines : List (List Token)) : Option (ℤ × ℤ × ℤ × ℤ) :=
  match pyGet lines 0 with
  | none => none
  | some l0 =>
    match pyGet l0 0 with
    | none => none
    | some t0 =>
      match t0.asInt with
      | none => none
      | some a =>
        match pyGet l0 1 with
        | none => none
        | some t1 =>
          match t1.asInt with
          | none => none
          | some b =>
            match pyGet l0 2 with
            | none => none
            | some t2 =>
              match t2.asInt with
              | none => none
              | some c =>
                match pyGet l0 3 with
                | none => none
                | some t3 =>
                  match t3.asInt with
                  | none => none
                  | some d => some (a, b, c, d)

/-- Depot line `i` is present with two `int`-convertible leading tokens. -/
def depotLineOKB (lines : List (List Token)) (i : ℤ) : Bool :=
  match pyGet lines i with
  | some l => intTokOKB l 0 && intTokOKB l 1
  | none => false

/-- Customer line `i` parses: the line exists, has at least 5 tokens, its
required tokens convert, and (without native time windows) at least one
depot record exists for the synthesized window. -/
def custLineOKB (lines : List (List Token)) (hasTW hasDepot : Bool) (i : ℤ) : Bool :=
  if (lines.length : ℤ) ≤ i then false
  else match pyGet lines i with
    | none => false
    | some tks =>
      if tks.length < 5 then false
      else intTokOKB tks 0 && floatTokOKB tks 1 && floatTokOKB tks 2 && floatTokOKB tks 3 &&
        intTokOKB tks 4 &&
        (if hasTW then intTokOKB tks (-2) && intTokOKB tks (-1) else hasDepot)

/-- Depot-coordinate line `i` parses (a missing line is tolerated). -/
def coordLineOKB (lines : List (List Token)) (i : ℤ) : Bool :=
  if i < (lines.length : ℤ) then
    match pyGet lines i with
    | some l => intTokOKB l 0 && floatTokOKB l 1 && floatTokOKB l 2
    | none => false
  else true

/-- Token-level characterization of the inputs the parser accepts. -/
def wellFormedB (lines : List (List Token)) : Bool :=
  match headerValsB lines with
  | none => false
  | some (vt, _, nc, nd) =>
    ((pyRange 1 (nd + 1)).all (fun i => depotLineOKB lines i)) &&
    ((pyRange (nd + 1) (nd + nc + 1)).all
      (fun i => custLineOKB lines (vt == 6) (decide (1 ≤ nd)) i)) &&
    ((pyRange (nd + nc + 1) (nd + nc + nd + 1)).all (fun i => coordLineOKB lines i))

/-- Modelled from the spec: the failure condition named by the claim —
fewer lines than required, a customer line with fewer than 5 tokens, or a
required token that is present but fails its numeric conversion. -/
def fewerLinesB (lines : List (List Token)) : Bool :=
  match headerValsB lines with
  | none => lines.length == 0
  | some (_, _, nc, nd) => (lines.length : ℤ) < 1 + max nd 0 + max nc 0

/-- Modelled from the spec: some customer line exists but has fewer than 5
tokens. -/
def custShortB (lines : List (List Token)) : Bool :=
  match headerValsB lines with
  | none => false
  | some (_, _, nc, nd) =>
    (pyRange (nd + 1) (nd + nc + 1)).any (fun i =>
      match pyGet lines i with
      | some tks => tks.length < 5
      | none => false)

/-- Modelled from the spec: some required token is present but fails its
numeric conversion. -/
def convFailB (lines : List (List Token)) : Bool :=
  (match pyGet lines 0 with
   | some l0 => intFailB l0 0 || intFailB l0 1 || intFailB l0 2 || intFailB l0 3
   | none => false) ||
  (match headerValsB lines with
   | none => false
   | some (vt, _, nc, nd) =>
     ((pyRange 1 (nd + 1)).any (fun i =>
        match pyGet lines i with
        | some l => intFailB l 0 || intFailB l 1
        | none => false)) ||
     ((pyRange (nd + 1) (nd + nc + 1)).any (fun i =>
        match pyGet lines i with
        | some tks => intFailB tks 0 || floatFailB tks 1 || floatFailB tks 2 ||
            floatFailB tks 3 || intFailB tks 4 ||
            (vt == 6 && (intFailB tks (-2) || intFailB tks (-1)))
        | none => false)) ||
     ((pyRange (nd + nc + 1) (nd + nc + nd + 1)).any (fun i =>
        if i < (lines.length : ℤ) then
          match pyGet lines i with
          | some l => intFailB l 0 || floatFailB l 1 || floatFailB l 2
          | none => false
        else false)))

/-- Modelled from the spec: the claim's exact list of `MalformedInstance`
triggers. -/
def claimedMalformedB (lines : List (List Token)) : Bool :=
  fewerLinesB lines || custShortB lines || convFailB lines

/-! ### Concrete instances used as witnesses and counterexamples -/

instance : Inhabited ParsedData := ⟨⟨0, 0, 0, 0, [], [], []⟩⟩

/-- A type-6 instance with one depot of base capacity 4 (so the smallest
vehicle capacity is 1) and one customer of demand 2. -/
def exInput1 : List (List Token) :=
  [[tInt 6, tInt 1, tInt 1, tInt 1],
   [tInt 1000, tInt 4],
   [tInt 1, tInt 0, tInt 0, tInt 10, tInt 2, tInt 0, tInt 100],
   [tInt 1, tInt 0, tInt 0]]

def exRng1 : RNG := [1/2, 0]

def exPd1 : ParsedData := (parseStage exInput1).toOption.getD default

def exDoc1 : InstanceDoc := (transform_instance_to_json exInput1 exRng1).toOption.getD default

/-- A type-6 instance with one depot of base capacity 100 and two customers
of demand 5. -/
def exInput6 : List (List Token) :=
  [[tInt 6, tInt 1, tInt 2, tInt 1],
   [tInt 1000, tInt 100],
   [tInt 1, tInt 0, tInt 0, tInt 10, tInt 5, tInt 0, tInt 100],
   [tInt 2, tInt 1, tInt 1, tInt 10, tInt 5, tInt 0, tInt 100],
   [tInt 1, tInt 0, tInt 0]]

def exRng6 : RNG := [1/2, 0, 19/20, 1/2]

def exPd6 : ParsedData := (parseStage exInput6).toOption.getD default

def exDoc6 : InstanceDoc := (transform_instance_to_json exInput6 exRng6).toOption.getD default

def exDoc6i : InstanceDoc := (transformInterleaved exInput6 exRng6).toOption.getD default

/-- A successfully parsing instance whose single customer has demand `-5`. -/
def exInput7 : List (List Token) :=
  [[tInt 6, tInt 1, tInt 1, tInt 1],
   [tInt 1000, tInt 100],
   [tInt 1, tInt 0, tInt 0, tInt 10, tInt (-5), tInt 0, tInt 100],
   [tInt 1, tInt 0, tInt 0]]

def exRng7 : RNG := [1/2, 0]

def exDoc7 : InstanceDoc := (transform_instance_to_json exInput7 exRng7).toOption.getD default

/-- An instance whose single customer has the non-integral service time
`10.03`, demand 2, and both quantities positive after augmentation. -/
def exInput8 : List (List Token) :=
  [[tInt 6, tInt 1, tInt 1, tInt 1],
   [tInt 1000, tInt 100],
   [tInt 1, tInt 0, tInt 0, tFloat (1003/100), tInt 2, tInt 0, tInt 100],
   [tInt 1, tInt 0, tInt 0]]

def exRng8 : RNG := [1/2, 0]

def exPd8 : ParsedData := (parseStage exInput8).toOption.getD default

def exDoc8 : InstanceDoc := (transform_instance_to_json exInput8 exRng8).toOption.getD default

/-- An instance whose single customer is drawn into category C. -/
def exInputC : List (List Token) :=
  [[tInt 6, tInt 1, tInt 1, tInt 1],
   [tInt 1000, tInt 100],
   [tInt 2, tInt 3, tInt 4, tInt 10, tInt 5, tInt 0, tInt 100],
   [tInt 1, tInt 0, tInt 0]]

def exRngC : RNG := [19/20, 1/2]

def exPdC : ParsedData := (parseStage exInputC).toOption.getD default

def exDocC : InstanceDoc := (transform_instance_to_json exInputC exRngC).toOption.getD default

/-- An instance whose second line (a depot record) has only one token: the
parse fails, but none of the claim's three `MalformedInstance` triggers
holds. -/
def exInput4 : List (List Token) :=
  [[tInt 6, tInt 1, tInt 1, tInt 1],
   [tInt 1000],
   [tInt 1, tInt 0, tInt 0, tInt 10, tInt 5, tInt 0, tInt 100],
   [tInt 1, tInt 0, tInt 0]]

/-- An instance whose customer line (index 2) has a non-numeric service-time
token: the customer loop reports line index and raw tokens and re-raises. -/
def exInput4c : List (List Token) :=
  [[tInt 6, tInt 1, tInt 1, tInt 1],
   [tInt 1000, tInt 100],
   [tInt 1, tInt 0, tInt 0, tBad, tInt 5, tInt 0, tInt 100],
   [tInt 1, tInt 0, tInt 0]]

/-! ### Basic lemmas about the embedding's plumbing -/

theorem bind_ok_inv {α β : Type} {x : Except PyErr α} {f : α → Except PyErr β} {c : β}
    (h : (x >>= f) = .ok c) : ∃ b, x = .ok b ∧ f b = .ok c := by
  cases x with
  | error e => simp [Bind.bind, Except.bind] at h
  | ok b => exact ⟨b, rfl, by simpa [Bind.bind, Except.bind] using h⟩

theorem exMapM_ok_length {α β : Type} (f : α → Except PyErr β) :
    ∀ (xs : List α) (ys : List β), exMapM f xs = .ok ys → ys.length = xs.length := by
  intro xs
  induction xs with
  | nil =>
    intro ys h
    unfold exMapM at h
    injection h with h
    subst h
    rfl
  | cons x xs ih =>
    intro ys h
    unfold exMapM at h
    obtain ⟨y, hy, h⟩ := bind_ok_inv h
    obtain ⟨ys', hys, h⟩ := bind_ok_inv h
    injection h with h
    subst h
    simp [ih ys' hys]

theorem pyRange_length (a b : ℤ) : (pyRange a b).length = (b - a).toNat := by
  unfold pyRange
  rw [List.length_map, List.length_range]

theorem rand_fst (s : RNG) : (rand s).1 = s.getD 0 0 := by
  cases s <;> rfl

theorem rand_snd (s : RNG) : (rand s).2 = s.drop 1 := by
  cases s <;> rfl

theorem getD_drop (s : RNG) (n i : ℕ) : (s.drop n).getD i 0 = s.getD (n + i) 0 := by
  induction n generalizing s with
  | zero => simp
  | succ n ih =>
    cases s with
    | nil => simp
    | cons u t =>
      have h1 : n + 1 + i = (n + i) + 1 := by omega
      simp [h1, ih t]

theorem validRNG_getD {s : RNG} (h : ValidRNG s) (i : ℕ) :
    0 ≤ s.getD i 0 ∧ s.getD i 0 < 1 := by
  induction s generalizing i with
  | nil => cases i <;> norm_num [List.getD]
  | cons u t ih =>
    cases i with
    | zero => exact h u (by simp)
    | succ j => exact ih (fun x hx => h x (by simp [hx])) j

/-! ### Draw bookkeeping of the two augmentation passes -/

theorem categorizeAll_get? (cs : List Customer) (s : RNG) (i : ℕ) :
    (categorizeAll cs s).1[i]? =
      (cs[i]?).map (fun c => (c, categoryOf (s.getD i 0))) := by
  induction cs generalizing s i with
  | nil => simp [categorizeAll]
  | cons c cs ih =>
    cases i with
    | zero => simp [categorizeAll, rand_fst]
    | succ j =>
      have h1 : (1 : ℕ) + j = j + 1 := by omega
      simp only [categorizeAll, List.getElem?_cons_succ, ih, rand_snd, getD_drop, h1]

theorem categorizeAll_length (cs : List Customer) (s : RNG) :
    (categorizeAll cs s).1.length = cs.length := by
  induction cs generalizing s with
  | nil => simp [categorizeAll]
  | cons c cs ih => simp [categorizeAll, ih]

theorem categorizeAll_snd (cs : List Customer) (s : RNG) :
    (categorizeAll cs s).2 = s.drop cs.length := by
  induction cs generalizing s with
  | nil => simp [categorizeAll]
  | cons c cs ih =>
    simp [categorizeAll, rand_snd, ih, List.drop_drop]

theorem quantifyAll_get? (avg cap : ℚ) (ccs : List (Customer × Category)) (s : RNG) (i : ℕ) :
    (quantifyAll avg cap ccs s).1[i]? =
      (ccs[i]?).map (fun cc => quantifyOne avg cap cc (s.getD i 0)) := by
  induction ccs generalizing s i with
  | nil => simp [quantifyAll]
  | cons cc ccs ih =>
    cases i with
    | zero => simp [quantifyAll, rand_fst]
    | succ j =>
      have h1 : (1 : ℕ) + j = j + 1 := by omega
      simp only [quantifyAll, List.getElem?_cons_succ, ih, rand_snd, getD_drop, h1]

theorem quantifyAll_length (avg cap : ℚ) (ccs : List (Customer × Category)) (s : RNG) :
    (quantifyAll avg cap ccs s).1.length = ccs.length := by
  induction ccs generalizing s with
  | nil => simp [quantifyAll]
  | cons cc ccs ih => simp [quantifyAll, ih]

theorem pipelineSCs_get? (pd : ParsedData) (rng : RNG) (cap : ℚ) (i : ℕ) :
    (pipelineSCs pd rng cap)[i]? =
      (pd.customers[i]?).map (fun c =>
        augOne (avgDemand pd.customers) cap c (rng.getD i 0)
          (rng.getD (pd.customers.length + i) 0)) := by
  unfold pipelineSCs augOne
  rw [List.getElem?_map, quantifyAll_get?, categorizeAll_get?, categorizeAll_snd, getD_drop]
  cases pd.customers[i]? <;> simp

theorem pipelineSCs_length (pd : ParsedData) (rng : RNG) (cap : ℚ) :
    (pipelineSCs pd rng cap).length = pd.customers.length := by
  simp [pipelineSCs, quantifyAll_length, categorizeAll_length]

/-! ### What a successful run of the transformation looks like -/

theorem transform_ok_inv {lines : List (List Token)} {rng : RNG} {doc : InstanceDoc}
    (h : transform_instance_to_json lines rng = .ok doc) :
    ∃ pd cap, parseStage lines = .ok pd ∧
      smallestVehicleCapacity pd.depotInfo = .ok cap ∧
      doc = assembleDoc pd (pipelineSCs pd rng cap) := by
  unfold transform_instance_to_json at h
  obtain ⟨pd, hp, h⟩ := bind_ok_inv h
  obtain ⟨cap, hcap, h⟩ := bind_ok_inv h
  refine ⟨pd, cap, hp, hcap, ?_⟩
  simp only [pure] at h
  cases h
  rfl

theorem customers_get? {lines : List (List Token)} {rng : RNG} {pd : ParsedData}
    {doc : InstanceDoc} {cap : ℚ}
    (hp : parseStage lines = .ok pd)
    (hcap : smallestVehicleCapacity pd.depotInfo = .ok cap)
    (ht : transform_instance_to_json lines rng = .ok doc) (i : ℕ) :
    doc.customers[i]? = (pd.customers[i]?).map (fun c =>
      outOf (augOne (avgDemand pd.customers) cap c (rng.getD i 0)
        (rng.getD (pd.customers.length + i) 0))) := by
  obtain ⟨pd', cap', hp', hcap', hdoc⟩ := transform_ok_inv ht
  rw [hp] at hp'
  cases Except.ok.inj hp'
  rw [hcap] at hcap'
  cases Except.ok.inj hcap'
  subst hdoc
  show ((pipelineSCs pd rng cap).map outOf)[i]? = _
  rw [List.getElem?_map, pipelineSCs_get?]
  cases pd.customers[i]? <;> simp

/-! ### Arithmetic facts about one customer's augmentation -/

theorem quantifyOne_delivery (avg cap : ℚ) (cc : Customer × Category) (u : ℚ) :
    (quantifyOne avg cap cc u).delivery_qty = (rawQuantities cc.2 cc.1.demand avg u).1 := rfl

theorem quantifyOne_pickup (avg cap : ℚ) (cc : Customer × Category) (u : ℚ) :
    (quantifyOne avg cap cc u).pickup_qty =
      (if cap < ((rawQuantities cc.2 cc.1.demand avg u).1 : ℚ) +
          ((rawQuantities cc.2 cc.1.demand avg u).2 : ℚ) then
        max 1 (pyTrunc (cap - ((rawQuantities cc.2 cc.1.demand avg u).1 : ℚ)))
      else (rawQuantities cc.2 cc.1.demand avg u).2) := rfl

theorem rawQ_delivery (cat : Category) (d : ℤ) (avg u : ℚ) :
    (rawQuantities cat d avg u).1 = if cat = .C then 0 else d := by
  cases cat <;> rfl

theorem pickup_factor_A_pos {u : ℚ} (hu : 0 ≤ u) : 0 < pickup_factor_A u := by
  unfold pickup_factor_A CATEGORY_A_PICKUP_MIN CATEGORY_A_PICKUP_MAX
  have h : 0 ≤ u * (20/100 - 5/100 : ℚ) := mul_nonneg hu (by norm_num)
  linarith

theorem pickup_factor_B_pos {u : ℚ} (hu : 0 ≤ u) : 0 < pickup_factor_B u := by
  unfold pickup_factor_B CATEGORY_B_PICKUP_MIN CATEGORY_B_PICKUP_MAX
  have h : 0 ≤ u * (50/100 - 20/100 : ℚ) := mul_nonneg hu (by norm_num)
  linarith

theorem pyRandint_mem (lo hi : ℤ) (u : ℚ) (hu0 : 0 ≤ u) (hu1 : u < 1) (h : lo ≤ hi) :
    lo ≤ pyRandint lo hi u ∧ pyRandint lo hi u ≤ hi := by
  unfold pyRandint
  have hc : (0:ℚ) < ((hi - lo + 1 : ℤ) : ℚ) := by
    have h2 : (0:ℤ) < hi - lo + 1 := by omega
    exact_mod_cast h2
  constructor
  · have h3 : (0:ℤ) ≤ ⌊u * ((hi - lo + 1 : ℤ) : ℚ)⌋ :=
      Int.floor_nonneg.mpr (mul_nonneg hu0 hc.le)
    omega
  · have hlt : u * ((hi - lo + 1 : ℤ) : ℚ) < ((hi - lo + 1 : ℤ) : ℚ) := by
      calc u * ((hi - lo + 1 : ℤ) : ℚ) < 1 * ((hi - lo + 1 : ℤ) : ℚ) :=
            mul_lt_mul_of_pos_right hu1 hc
      _ = ((hi - lo + 1 : ℤ) : ℚ) := one_mul _
    have h4 : ⌊u * ((hi - lo + 1 : ℤ) : ℚ)⌋ < hi - lo + 1 := Int.floor_lt.mpr hlt
    omega

theorem catC_hi_bounds (avg : ℚ) :
    (1:ℤ) ≤ min 3 (max 1 ⌈avg * (15/100)⌉) ∧ min 3 (max 1 ⌈avg * (15/100)⌉) ≤ 3 :=
  ⟨le_min (by norm_num) (le_max_left _ _), min_le_left _ _⟩

theorem rawQ_pickup_pos {cat : Category} {d : ℤ} {avg u : ℚ} (hu0 : 0 ≤ u) (hu1 : u < 1)
    (h : 1 ≤ d ∨ cat = .C) : 1 ≤ (rawQuantities cat d avg u).2 := by
  cases cat with
  | A =>
    have hd : 1 ≤ d := by rcases h with h | h; exact h; cases h
    show 1 ≤ ⌈pickup_factor_A u * (d:ℚ)⌉
    have hdq : (0:ℚ) < (d:ℚ) := by exact_mod_cast lt_of_lt_of_le Int.zero_lt_one hd
    exact Int.ceil_pos.mpr (mul_pos (pickup_factor_A_pos hu0) hdq)
  | B =>
    have hd : 1 ≤ d := by rcases h with h | h; exact h; cases h
    show 1 ≤ ⌈pickup_factor_B u * (d:ℚ)⌉
    have hdq : (0:ℚ) < (d:ℚ) := by exact_mod_cast lt_of_lt_of_le Int.zero_lt_one hd
    exact Int.ceil_pos.mpr (mul_pos (pickup_factor_B_pos hu0) hdq)
  | C =>
    exact (pyRandint_mem 1 _ u hu0 hu1 (catC_hi_bounds avg).1).1

theorem rawQ_pickup_nonneg {cat : Category} {d : ℤ} {avg u : ℚ} (hu0 : 0 ≤ u) (hu1 : u < 1)
    (hd : 0 ≤ d) : 0 ≤ (rawQuantities cat d avg u).2 := by
  cases cat with
  | A =>
    show 0 ≤ ⌈pickup_factor_A u * (d:ℚ)⌉
    exact Int.ceil_nonneg (mul_nonneg (pickup_factor_A_pos hu0).le (by exact_mod_cast hd))
  | B =>
    show 0 ≤ ⌈pickup_factor_B u * (d:ℚ)⌉
    exact Int.ceil_nonneg (mul_nonneg (pickup_factor_B_pos hu0).le (by exact_mod_cast hd))
  | C =>
    show (0:ℤ) ≤ pyRandint 1 (min 3 (max 1 ⌈avg * (15/100)⌉)) u
    have h1 := (pyRandint_mem 1 _ u hu0 hu1 (catC_hi_bounds avg).1).1
    omega

theorem quantifyOne_pickup_pos (avg cap : ℚ) (cc : Customer × Category) (u : ℚ)
    (hu0 : 0 ≤ u) (hu1 : u < 1) (h : 1 ≤ cc.1.demand ∨ cc.2 = .C) :
    1 ≤ (quantifyOne avg cap cc u).pickup_qty := by
  rw [quantifyOne_pickup]
  split
  · exact le_max_left 1 _
  · exact rawQ_pickup_pos hu0 hu1 h

theorem quantifyOne_pickup_nonneg (avg cap : ℚ) (cc : Customer × Category) (u : ℚ)
    (hu0 : 0 ≤ u) (hu1 : u < 1) (hd : 0 ≤ cc.1.demand) :
    0 ≤ (quantifyOne avg cap cc u).pickup_qty := by
  rw [quantifyOne_pickup]
  split
  · have h1 : (1:ℤ) ≤ max 1 (pyTrunc (cap - ((rawQuantities cc.2 cc.1.demand avg u).1 : ℚ))) :=
      le_max_left 1 _
    omega
  · exact rawQ_pickup_nonneg hu0 hu1 hd

theorem quantifyOne_delivery_nonneg (avg cap : ℚ) (cc : Customer × Category) (u : ℚ)
    (hd : 0 ≤ cc.1.demand) : 0 ≤ (quantifyOne avg cap cc u).delivery_qty := by
  rw [quantifyOne_delivery, rawQ_delivery]
  split
  · exact le_refl 0
  · exact hd

theorem quantifyOne_pickup_zero (avg cap : ℚ) (cc : Customer × Category) (u : ℚ)
    (hu0 : 0 ≤ u) (hu1 : u < 1)
    (hz : (quantifyOne avg cap cc u).pickup_qty = 0) :
    (cc.2 = .A ∨ cc.2 = .B) ∧ cc.1.demand ≤ 0 := by
  constructor
  · cases hcat : cc.2 with
    | A => exact Or.inl rfl
    | B => exact Or.inr rfl
    | C =>
      have h1 := quantifyOne_pickup_pos avg cap cc u hu0 hu1 (Or.inr hcat)
      omega
  · by_contra hd
    push_neg at hd
    have h1 := quantifyOne_pickup_pos avg cap cc u hu0 hu1 (Or.inl hd)
    omega

theorem clamp_bound (avg cap : ℚ) (cc : Customer × Category) (u : ℚ) :
    ((quantifyOne avg cap cc u).delivery_qty : ℚ) +
        ((quantifyOne avg cap cc u).pickup_qty : ℚ) ≤ cap ∨
      (quantifyOne avg cap cc u).pickup_qty = 1 := by
  rw [quantifyOne_delivery, quantifyOne_pickup]
  set dq := (rawQuantities cc.2 cc.1.demand avg u).1 with hdq
  set pq0 := (rawQuantities cc.2 cc.1.demand avg u).2 with hpq
  by_cases hc : cap < (dq : ℚ) + (pq0 : ℚ)
  · rw [if_pos hc]
    rcases le_or_lt (pyTrunc (cap - (dq:ℚ))) 1 with h1 | h1
    · right
      exact max_eq_left h1
    · left
      rw [max_eq_right h1.le]
      have hpos : (0:ℚ) ≤ cap - (dq:ℚ) := by
        by_contra hneg
        push_neg at hneg
        have h2 : pyTrunc (cap - (dq:ℚ)) = ⌈cap - (dq:ℚ)⌉ := by
          unfold pyTrunc
          rw [if_neg (not_le.mpr hneg)]
        have h3 : ⌈cap - (dq:ℚ)⌉ ≤ 0 := Int.ceil_le.mpr (by exact_mod_cast hneg.le)
        omega
      have h4 : pyTrunc (cap - (dq:ℚ)) = ⌊cap - (dq:ℚ)⌋ := by
        unfold pyTrunc
        rw [if_pos hpos]
      rw [h4]
      have h5 := Int.floor_le (cap - (dq:ℚ))
      linarith
  · rw [if_neg hc]
    left
    exact le_of_not_lt hc

theorem quantifyOne_catC (avg cap : ℚ) (cc : Customer × Category) (u : ℚ)
    (hu0 : 0 ≤ u) (hu1 : u < 1) (hC : cc.2 = .C) :
    (quantifyOne avg cap cc u).delivery_qty = 0 ∧
      1 ≤ (quantifyOne avg cap cc u).pickup_qty ∧
      (quantifyOne avg cap cc u).pickup_qty ≤ 3 := by
  have hdq0 : (rawQuantities cc.2 cc.1.demand avg u).1 = 0 := by
    rw [rawQ_delivery, if_pos hC]
  have hpq3 : (rawQuantities cc.2 cc.1.demand avg u).2 ≤ 3 := by
    rw [hC]
    exact le_trans (pyRandint_mem 1 _ u hu0 hu1 (catC_hi_bounds avg).1).2 (catC_hi_bounds avg).2
  refine ⟨by rw [quantifyOne_delivery, hdq0],
    quantifyOne_pickup_pos avg cap cc u hu0 hu1 (Or.inr hC), ?_⟩
  rw [quantifyOne_pickup]
  split
  · next hclamp =>
    rw [hdq0] at hclamp
    have hcap3 : cap < 3 := by
      have h6 : ((rawQuantities cc.2 cc.1.demand avg u).2 : ℚ) ≤ 3 := by exact_mod_cast hpq3
      push_cast at hclamp
      linarith
    have htr : pyTrunc cap ≤ 2 := by
      unfold pyTrunc
      split
      · next hge =>
        have h7 : ⌊cap⌋ < 3 := Int.floor_lt.mpr (by exact_mod_cast hcap3)
        omega
      · next hlt =>
        push_neg at hlt
        have h8 : ⌈cap⌉ ≤ 0 := Int.ceil_le.mpr (by exact_mod_cast hlt.le)
        omega
    rw [hdq0]
    simp only [Int.cast_zero, sub_zero]
    exact max_le (by norm_num) (by omega)
  · exact hpq3

/-! ### Rounding and the time-window repair -/

theorem halfEven_le_int (q : ℚ) (n : ℤ) (h : q ≤ (n:ℚ)) : halfEven q ≤ n := by
  unfold halfEven
  by_cases h1 : q - (⌊q⌋:ℚ) < 1/2
  · rw [if_pos h1]
    have h2 : ⌊q⌋ ≤ ⌊(n:ℚ)⌋ := Int.floor_le_floor h
    simpa using h2
  · rw [if_neg h1]
    have hq : (1:ℚ)/2 ≤ q - ⌊q⌋ := le_of_not_lt h1
    have h2 : (⌊q⌋:ℚ) < q := by linarith
    have h3 : ⌊q⌋ < n := by exact_mod_cast lt_of_lt_of_le h2 h
    split_ifs <;> omega

theorem pyRound1_le_int (q : ℚ) (n : ℤ) (h : q ≤ (n:ℚ)) : pyRound1 q ≤ (n:ℚ) := by
  unfold pyRound1
  have h10 : 10 * q ≤ ((10 * n : ℤ) : ℚ) := by push_cast; linarith
  have h2 := halfEven_le_int (10 * q) (10 * n) h10
  rw [div_le_iff₀ (show (0:ℚ) < 10 by norm_num)]
  have h3 : ((halfEven (10*q) : ℤ) : ℚ) ≤ ((10*n : ℤ) : ℚ) := by exact_mod_cast h2
  push_cast at h3 ⊢
  linarith

theorem tw_invariant (tws twe : ℤ) (T : ℚ) :
    (tws : ℚ) + pyRound1 T ≤ ((repairEnd tws twe T : ℤ) : ℚ) := by
  unfold repairEnd
  by_cases h : (twe:ℚ) < (tws:ℚ) + T
  · rw [if_pos h]
    have hceil : pyRound1 T ≤ (⌈T⌉ : ℚ) := pyRound1_le_int T ⌈T⌉ (Int.le_ceil T)
    have h2 : ⌈(tws:ℚ) + T⌉ = tws + ⌈T⌉ := by
      rw [add_comm ((tws:ℚ)) T, Int.ceil_add_int]
      omega
    rw [h2]
    push_cast
    linarith
  · rw [if_neg h]
    have h3 : (tws:ℚ) + T ≤ (twe:ℚ) := le_of_not_lt h
    have h4 : T ≤ ((twe - tws : ℤ) : ℚ) := by push_cast; linarith
    have h5 := pyRound1_le_int T (twe - tws) h4
    push_cast at h5 ⊢
    linarith

theorem doc_shape {lines : List (List Token)} {rng : RNG} {pd : ParsedData}
    {doc : InstanceDoc} {cap : ℚ}
    (hp : parseStage lines = .ok pd)
    (hcap : smallestVehicleCapacity pd.depotInfo = .ok cap)
    (ht : transform_instance_to_json lines rng = .ok doc) :
    doc.metadata.customerCount = pd.numCustomers ∧
    doc.metadata.statistics = buildStats (pipelineSCs pd rng cap) ∧
    doc.depots = buildDepots pd.depotCoords pd.depotInfo ∧
    doc.customers = (pipelineSCs pd rng cap).map outOf := by
  obtain ⟨pd', cap', hp', hcap', hdoc⟩ := transform_ok_inv ht
  rw [hp] at hp'
  cases Except.ok.inj hp'
  rw [hcap] at hcap'
  cases Except.ok.inj hcap'
  subst hdoc
  exact ⟨rfl, rfl, rfl, rfl⟩

theorem pipelineSCs_mem {pd : ParsedData} {rng : RNG} {cap : ℚ} {sc : SCustomer}
    (h : sc ∈ pipelineSCs pd rng cap) :
    ∃ (i : ℕ) (c : Customer), pd.customers[i]? = some c ∧
      sc = augOne (avgDemand pd.customers) cap c (rng.getD i 0)
        (rng.getD (pd.customers.length + i) 0) := by
  obtain ⟨i, hi⟩ := List.mem_iff_getElem?.mp h
  rw [pipelineSCs_get?] at hi
  cases hc : pd.customers[i]? with
  | none => rw [hc] at hi; cases hi
  | some c =>
    rw [hc] at hi
    simp only [Option.map_some'] at hi
    injection hi with hi
    exact ⟨i, c, hc, hi.symm⟩

/-! ### Inverting the parse stage -/

theorem bind_error_inv {α β : Type} {x : Except PyErr α} {f : α → Except PyErr β} {e : PyErr}
    (h : (x >>= f) = .error e) : x = .error e ∨ ∃ b, x = .ok b ∧ f b = .error e := by
  cases x with
  | error e' =>
    left
    have h2 : e' = e := by simpa [Bind.bind, Except.bind] using h
    rw [h2]
  | ok b =>
    right
    exact ⟨b, rfl, by simpa [Bind.bind, Except.bind] using h⟩

theorem exMapM_error_inv {α β : Type} (f : α → Except PyErr β) :
    ∀ (xs : List α) (e : PyErr), exMapM f xs = .error e → ∃ x ∈ xs, f x = .error e := by
  intro xs
  induction xs with
  | nil => intro e h; unfold exMapM at h; cases h
  | cons x xs ih =>
    intro e h
    unfold exMapM at h
    rcases bind_error_inv h with h1 | ⟨y, hy, h⟩
    · exact ⟨x, by simp, h1⟩
    rcases bind_error_inv h with h2 | ⟨ys, hys, h⟩
    · obtain ⟨x', hx', hfe⟩ := ih e h2
      exact ⟨x', by simp [hx'], hfe⟩
    · cases h

theorem parseStage_ok_inv {lines : List (List Token)} {pd : ParsedData}
    (h : parseStage lines = .ok pd) :
    parseHeader lines = .ok (pd.vrpType, pd.numVehicles, pd.numCustomers, pd.numDepots) ∧
    exMapM (parseDepotAt lines) (pyRange 1 (pd.numDepots + 1)) = .ok pd.depotInfo ∧
    exMapM (parseCustomerAt lines (pd.vrpType == 6) pd.depotInfo)
        (pyRange (pd.numDepots + 1) (pd.numDepots + pd.numCustomers + 1)) = .ok pd.customers ∧
    ∃ rs, exMapM (parseCoordAt lines)
        (pyRange (pd.numDepots + pd.numCustomers + 1)
          (pd.numDepots + pd.numCustomers + pd.numDepots + 1)) = .ok rs ∧
      pd.depotCoords = rs.filterMap id := by
  unfold parseStage at h
  obtain ⟨v, hh, h⟩ := bind_ok_inv h
  obtain ⟨vt, nv, nc, nd⟩ := v
  obtain ⟨di, hd, h⟩ := bind_ok_inv h
  obtain ⟨cs, hc, h⟩ := bind_ok_inv h
  obtain ⟨rs, hr, h⟩ := bind_ok_inv h
  injection h with h
  subst h
  exact ⟨hh, hd, hc, rs, hr, rfl⟩

theorem parseStage_lengths {lines : List (List Token)} {pd : ParsedData}
    (h : parseStage lines = .ok pd) :
    pd.depotInfo.length = pd.numDepots.toNat ∧
    pd.customers.length = pd.numCustomers.toNat ∧
    pd.depotCoords.length ≤ pd.numDepots.toNat := by
  obtain ⟨hh, hd, hc, rs, hr, hco⟩ := parseStage_ok_inv h
  have h1 := exMapM_ok_length _ _ _ hd
  have h2 := exMapM_ok_length _ _ _ hc
  have h3 := exMapM_ok_length _ _ _ hr
  rw [pyRange_length] at h1 h2 h3
  refine ⟨by omega, by omega, ?_⟩
  rw [hco]
  calc (rs.filterMap id).length ≤ rs.length := List.length_filterMap_le _ _
  _ ≤ pd.numDepots.toNat := by omega

/-! ### The depot loop -/

theorem buildDepotsAux_get? (di : List (ℤ × ℤ)) :
    ∀ (coords : List (ℤ × ℚ × ℚ)) (j k : ℕ), j + coords.length ≤ di.length →
      (buildDepotsAux di j coords)[k]? = (coords[k]?).map (fun c =>
        ⟨c.1, c.2.1, c.2.2, (di.getD (j+k) (0,0)).1,
          buildVehicles (di.getD (j+k) (0,0)).1 (di.getD (j+k) (0,0)).2⟩) := by
  intro coords
  induction coords with
  | nil => intro j k h; simp [buildDepotsAux]
  | cons c cs ih =>
    intro j k h
    have hj : j < di.length := by simp at h; omega
    unfold buildDepotsAux
    rw [if_pos hj]
    cases k with
    | zero => simp
    | succ k' =>
      have h2 : (j + 1) + cs.length ≤ di.length := by simp at h; omega
      simp only [List.singleton_append, List.getElem?_cons_succ]
      rw [ih (j + 1) k' h2]
      have h3 : j + 1 + k' = j + (k' + 1) := by omega
      rw [h3]

theorem depots_get? {lines : List (List Token)} {rng : RNG} {pd : ParsedData}
    {doc : InstanceDoc} {cap : ℚ}
    (hp : parseStage lines = .ok pd)
    (hcap : smallestVehicleCapacity pd.depotInfo = .ok cap)
    (ht : transform_instance_to_json lines rng = .ok doc) (i : ℕ) :
    doc.depots[i]? = (pd.depotCoords[i]?).map (fun c =>
      ⟨c.1, c.2.1, c.2.2, (pd.depotInfo.getD i (0,0)).1,
        buildVehicles (pd.depotInfo.getD i (0,0)).1 (pd.depotInfo.getD i (0,0)).2⟩) := by
  rw [(doc_shape hp hcap ht).2.2.1]
  unfold buildDepots
  obtain ⟨hl1, _, hl3⟩ := parseStage_lengths hp
  have hle : 0 + pd.depotCoords.length ≤ pd.depotInfo.length := by omega
  rw [buildDepotsAux_get? pd.depotInfo pd.depotCoords 0 i hle]
  simp only [Nat.zero_add]

theorem buildVehicles_eq (dur b : ℤ) :
    buildVehicles dur b =
      [⟨"Type1", ⌊(b:ℚ) * (25/100)⌋, "unlimited", dur⟩,
       ⟨"Type2", ⌊(b:ℚ) * (50/100)⌋, "unlimited", dur⟩,
       ⟨"Type3", ⌊(b:ℚ) * (80/100)⌋, "unlimited", dur⟩,
       ⟨"Type4", ⌊(b:ℚ) * (120/100)⌋, "unlimited", dur⟩] := rfl

theorem buildVehicles_mono (dur b : ℤ) (hb : 0 ≤ b) :
    List.Chain' (· ≤ ·) ((buildVehicles dur b).map (fun v => v.capacity)) := by
  rw [buildVehicles_eq]
  have hbq : (0:ℚ) ≤ (b:ℚ) := by exact_mod_cast hb
  refine List.chain'_cons.mpr ⟨?_, List.chain'_cons.mpr ⟨?_, List.chain'_cons.mpr ⟨?_,
    List.chain'_singleton _⟩⟩⟩ <;>
    apply Int.floor_le_floor <;>
    apply mul_le_mul_of_nonneg_left (by norm_num) hbq

/-! ### Statistics -/

theorem categoryCount_cons (c : Category) (s : SCustomer) (t : List SCustomer) :
    categoryCount c (s :: t) = (if s.category = c then 1 else 0) + categoryCount c t := by
  unfold categoryCount
  rw [List.filter_cons]
  by_cases h : s.category = c
  · simp [h]
    omega
  · simp [h]

theorem categoryCount_sum (scs : List SCustomer) :
    categoryCount .A scs + categoryCount .B scs + categoryCount .C scs = scs.length := by
  induction scs with
  | nil => rfl
  | cons s t ih =>
    rw [categoryCount_cons, categoryCount_cons, categoryCount_cons]
    cases s.category <;> simp <;> omega

/-- Extract the per-customer correspondence used by several claims: if the
transformation succeeds and the `i`-th parsed customer is `c`, the `i`-th
output customer is the full augmentation of `c` by draws `i` and `n + i`. -/
theorem output_customer_eq {lines : List (List Token)} {rng : RNG} {pd : ParsedData}
    {doc : InstanceDoc} {cap : ℚ} {i : ℕ} {c : Customer} {oc : OutCustomer}
    (hp : parseStage lines = .ok pd)
    (hcap : smallestVehicleCapacity pd.depotInfo = .ok cap)
    (ht : transform_instance_to_json lines rng = .ok doc)
    (hc : pd.customers[i]? = some c)
    (hoc : doc.customers[i]? = some oc) :
    oc = outOf (augOne (avgDemand pd.customers) cap c (rng.getD i 0)
      (rng.getD (pd.customers.length + i) 0)) := by
  have hcg := customers_get? hp hcap ht i
  rw [hc, hoc] at hcg
  simp only [Option.map_some'] at hcg
  injection hcg

/-! ### Success and failure characterization of the parser -/

theorem tokIntAt_ok_iff (tks : List Token) (j : ℤ) :
    (∃ n, tokIntAt tks j = .ok n) ↔ intTokOKB tks j = true := by
  unfold tokIntAt intTokOKB
  cases h1 : pyGet tks j with
  | none => simp
  | some t =>
    cases h2 : t.asInt with
    | none => simp [*]
    | some n => simp [*]

theorem tokFloatAt_ok_iff (tks : List Token) (j : ℤ) :
    (∃ q, tokFloatAt tks j = .ok q) ↔ floatTokOKB tks j = true := by
  unfold tokFloatAt floatTokOKB
  cases h1 : pyGet tks j with
  | none => simp
  | some t =>
    cases h2 : t.asFloat with
    | none => simp [*]
    | some q => simp [*]

theorem parseHeader_ok_iff (lines : List (List Token)) (v : ℤ × ℤ × ℤ × ℤ) :
    parseHeader lines = .ok v ↔ headerValsB lines = some v := by
  unfold parseHeader headerValsB lineAt tokIntAt
  cases h1 : pyGet lines 0 with
  | none => simp [*, Bind.bind, Except.bind]
  | some l0 =>
    cases h2 : pyGet l0 0 with
    | none => simp [*, Bind.bind, Except.bind]
    | some t0 =>
      cases h3 : t0.asInt with
      | none => simp [*, Bind.bind, Except.bind]
      | some a =>
        cases h4 : pyGet l0 1 with
        | none => simp [*, Bind.bind, Except.bind]
        | some t1 =>
          cases h5 : t1.asInt with
          | none => simp [*, Bind.bind, Except.bind]
          | some b =>
            cases h6 : pyGet l0 2 with
            | none => simp [*, Bind.bind, Except.bind]
            | some t2 =>
              cases h7 : t2.asInt with
              | none => simp [*, Bind.bind, Except.bind]
              | some c =>
                cases h8 : pyGet l0 3 with
                | none => simp [*, Bind.bind, Except.bind]
                | some t3 =>
                  cases h9 : t3.asInt with
                  | none => simp [*, Bind.bind, Except.bind]
                  | some d => simp [*, Bind.bind, Except.bind]

theorem parseDepotAt_ok_iff (lines : List (List Token)) (i : ℤ) :
    (∃ v, parseDepotAt lines i = .ok v) ↔ depotLineOKB lines i = true := by
  unfold parseDepotAt depotLineOKB lineAt tokIntAt intTokOKB
  cases h1 : pyGet lines i with
  | none => simp [*, Bind.bind, Except.bind]
  | some l =>
    cases h2 : pyGet l 0 with
    | none => simp [*, Bind.bind, Except.bind]
    | some t0 =>
      cases h3 : t0.asInt with
      | none => simp [*, Bind.bind, Except.bind]
      | some a =>
        cases h4 : pyGet l 1 with
        | none => simp [*, Bind.bind, Except.bind]
        | some t1 =>
          cases h5 : t1.asInt with
          | none => simp [*, Bind.bind, Except.bind]
          | some b => simp [*, Bind.bind, Except.bind]

theorem maxDur_eq_none (di : List (ℤ × ℤ)) : maxDur di = none ↔ di = [] := by
  cases di <;> simp [maxDur]

theorem parseCustomerBody_ok_iff (tks : List Token) (hasTW : Bool) (di : List (ℤ × ℤ)) :
    (∃ c, parseCustomerBody tks hasTW di = .ok c) ↔
      (intTokOKB tks 0 && floatTokOKB tks 1 && floatTokOKB tks 2 && floatTokOKB tks 3 &&
        intTokOKB tks 4 &&
        (if hasTW then intTokOKB tks (-2) && intTokOKB tks (-1) else !di.isEmpty)) = true := by
  unfold parseCustomerBody tokIntAt tokFloatAt intTokOKB floatTokOKB
  cases h1 : pyGet tks 0 with
  | none => simp [*, Bind.bind, Except.bind]
  | some t0 =>
    cases h2 : t0.asInt with
    | none => simp [*, Bind.bind, Except.bind]
    | some a =>
      cases h3 : pyGet tks 1 with
      | none => simp [*, Bind.bind, Except.bind]
      | some t1 =>
        cases h4 : t1.asFloat with
        | none => simp [*, Bind.bind, Except.bind]
        | some x =>
          cases h5 : pyGet tks 2 with
          | none => simp [*, Bind.bind, Except.bind]
          | some t2 =>
            cases h6 : t2.asFloat with
            | none => simp [*, Bind.bind, Except.bind]
            | some y =>
              cases h7 : pyGet tks 3 with
              | none => simp [*, Bind.bind, Except.bind]
              | some t3 =>
                cases h8 : t3.asFloat with
                | none => simp [*, Bind.bind, Except.bind]
                | some st =>
                  cases h9 : pyGet tks 4 with
                  | none => simp [*, Bind.bind, Except.bind]
                  | some t4 =>
                    cases h10 : t4.asInt with
                    | none => simp [*, Bind.bind, Except.bind]
                    | some dm =>
                      cases hasTW with
                      | true =>
                        cases h11 : pyGet tks (-2) with
                        | none => simp [*, Bind.bind, Except.bind]
                        | some t5 =>
                          cases h12 : t5.asInt with
                          | none => simp [*, Bind.bind, Except.bind]
                          | some tws =>
                            cases h13 : pyGet tks (-1) with
                            | none => simp [*, Bind.bind, Except.bind]
                            | some t6 =>
                              cases h14 : t6.asInt with
                              | none => simp [*, Bind.bind, Except.bind]
                              | some twe => simp [*, Bind.bind, Except.bind]
                      | false =>
                        cases hmd : maxDur di with
                        | none =>
                          have hdi : di = [] := (maxDur_eq_none di).mp hmd
                          subst hdi
                          simp [*, Bind.bind, Except.bind]
                        | some md =>
                          cases di with
                          | nil =>
                            rw [(maxDur_eq_none []).mpr rfl] at hmd
                            cases hmd
                          | cons p l => simp [*, Bind.bind, Except.bind]

theorem parseCustomerAt_ok_iff (lines : List (List Token)) (hasTW : Bool)
    (di : List (ℤ × ℤ)) (i : ℤ) :
    (∃ c, parseCustomerAt lines hasTW di i = .ok c) ↔
      custLineOKB lines hasTW (!di.isEmpty) i = true := by
  unfold parseCustomerAt custLineOKB
  split
  · simp
  · cases h1 : pyGet lines i with
    | none => simp [*]
    | some tks =>
      simp only [h1]
      split
      · simp
      · rw [← parseCustomerBody_ok_iff tks hasTW di]
        cases parseCustomerBody tks hasTW di <;> simp

theorem parseCoordAt_ok_iff (lines : List (List Token)) (i : ℤ) :
    (∃ v, parseCoordAt lines i = .ok v) ↔ coordLineOKB lines i = true := by
  unfold parseCoordAt coordLineOKB lineAt tokIntAt tokFloatAt intTokOKB floatTokOKB
  split
  · cases h1 : pyGet lines i with
    | none => simp [*, Bind.bind, Except.bind]
    | some l =>
      cases h2 : pyGet l 0 with
      | none => simp [*, Bind.bind, Except.bind]
      | some t0 =>
        cases h3 : t0.asInt with
        | none => simp [*, Bind.bind, Except.bind]
        | some a =>
          cases h4 : pyGet l 1 with
          | none => simp [*, Bind.bind, Except.bind]
          | some t1 =>
            cases h5 : t1.asFloat with
            | none => simp [*, Bind.bind, Except.bind]
            | some x =>
              cases h6 : pyGet l 2 with
              | none => simp [*, Bind.bind, Except.bind]
              | some t2 =>
                cases h7 : t2.asFloat with
                | none => simp [*, Bind.bind, Except.bind]
                | some y => simp [*, Bind.bind, Except.bind]
  · simp

theorem exMapM_ok_iff {α β : Type} (f : α → Except PyErr β) (xs : List α) :
    (∃ ys, exMapM f xs = .ok ys) ↔ ∀ x ∈ xs, ∃ y, f x = .ok y := by
  induction xs with
  | nil => simp [exMapM]
  | cons x xs ih =>
    constructor
    · rintro ⟨ys, h⟩
      unfold exMapM at h
      obtain ⟨y, hy, h⟩ := bind_ok_inv h
      obtain ⟨ys', hys, _⟩ := bind_ok_inv h
      intro z hz
      rcases List.mem_cons.mp hz with rfl | hz
      · exact ⟨y, hy⟩
      · exact (ih.mp ⟨ys', hys⟩) z hz
    · intro hall
      obtain ⟨y, hy⟩ := hall x (by simp)
      obtain ⟨ys, hys⟩ := ih.mpr (fun z hz => hall z (by simp [hz]))
      refine ⟨y :: ys, ?_⟩
      unfold exMapM
      rw [hy, hys]
      rfl

theorem isEmpty_eq_decide {di : List (ℤ × ℤ)} {nd : ℤ} (h : di.length = nd.toNat) :
    (!di.isEmpty) = decide (1 ≤ nd) := by
  cases di with
  | nil =>
    simp only [List.length_nil] at h
    have h2 : ¬ (1 ≤ nd) := by omega
    simp [h2]
  | cons a l =>
    simp only [List.length_cons] at h
    have h2 : 1 ≤ nd := by omega
    simp [h2]

theorem parseStage_construct {lines : List (List Token)} {vt nv nc nd : ℤ}
    {di : List (ℤ × ℤ)} {cs : List Customer} {rs : List (Option (ℤ × ℚ × ℚ))}
    (hh : parseHeader lines = .ok (vt, nv, nc, nd))
    (hdi : exMapM (parseDepotAt lines) (pyRange 1 (nd + 1)) = .ok di)
    (hcs : exMapM (parseCustomerAt lines (vt == 6) di)
      (pyRange (nd + 1) (nd + nc + 1)) = .ok cs)
    (hrs : exMapM (parseCoordAt lines)
      (pyRange (nd + nc + 1) (nd + nc + nd + 1)) = .ok rs) :
    parseStage lines = .ok ⟨vt, nv, nc, nd, di, cs, rs.filterMap id⟩ := by
  unfold parseStage
  rw [hh]
  simp only [Bind.bind, Except.bind]
  rw [hdi]
  simp only []
  rw [hcs]
  simp only []
  rw [hrs]

theorem parseStage_ok_iff (lines : List (List Token)) :
    (∃ pd, parseStage lines = .ok pd) ↔ wellFormedB lines = true := by
  constructor
  · rintro ⟨pd, h⟩
    obtain ⟨hh, hdi, hcs, rs, hrs, _⟩ := parseStage_ok_inv h
    have hhv := (parseHeader_ok_iff lines _).mp hh
    unfold wellFormedB
    rw [hhv]
    have hdlen : pd.depotInfo.length = pd.numDepots.toNat := by
      have h2 := exMapM_ok_length _ _ _ hdi
      rw [pyRange_length] at h2
      omega
    simp only [Bool.and_eq_true, List.all_eq_true]
    refine ⟨⟨?_, ?_⟩, ?_⟩
    · intro i hi
      exact (parseDepotAt_ok_iff lines i).mp ((exMapM_ok_iff _ _).mp ⟨_, hdi⟩ i hi)
    · intro i hi
      have h3 := (parseCustomerAt_ok_iff lines (pd.vrpType == 6) pd.depotInfo i).mp
        ((exMapM_ok_iff _ _).mp ⟨_, hcs⟩ i hi)
      rw [isEmpty_eq_decide hdlen] at h3
      exact h3
    · intro i hi
      exact (parseCoordAt_ok_iff lines i).mp ((exMapM_ok_iff _ _).mp ⟨_, hrs⟩ i hi)
  · intro hwf
    unfold wellFormedB at hwf
    cases hhv : headerValsB lines with
    | none => rw [hhv] at hwf; cases hwf
    | some v =>
      obtain ⟨vt, nv, nc, nd⟩ := v
      rw [hhv] at hwf
      simp only [Bool.and_eq_true, List.all_eq_true] at hwf
      obtain ⟨⟨hd, hc⟩, hco⟩ := hwf
      have hh : parseHeader lines = .ok (vt, nv, nc, nd) :=
        (parseHeader_ok_iff lines _).mpr hhv
      obtain ⟨di, hdi⟩ : ∃ di, exMapM (parseDepotAt lines) (pyRange 1 (nd + 1)) = .ok di :=
        (exMapM_ok_iff _ _).mpr (fun i hi => (parseDepotAt_ok_iff lines i).mpr (hd i hi))
      have hdlen : di.length = nd.toNat := by
        have h2 := exMapM_ok_length _ _ _ hdi
        rw [pyRange_length] at h2
        omega
      obtain ⟨cs, hcs⟩ : ∃ cs, exMapM (parseCustomerAt lines (vt == 6) di)
          (pyRange (nd + 1) (nd + nc + 1)) = .ok cs := by
        apply (exMapM_ok_iff _ _).mpr
        intro i hi
        apply (parseCustomerAt_ok_iff lines (vt == 6) di i).mpr
        rw [isEmpty_eq_decide hdlen]
        exact hc i hi
      obtain ⟨rs, hrs⟩ : ∃ rs, exMapM (parseCoordAt lines)
          (pyRange (nd + nc + 1) (nd + nc + nd + 1)) = .ok rs :=
        (exMapM_ok_iff _ _).mpr (fun i hi => (parseCoordAt_ok_iff lines i).mpr (hco i hi))
      exact ⟨_, parseStage_construct hh hdi hcs hrs⟩

theorem except_error_iff_not_ok {α : Type} (x : Except PyErr α) :
    (∃ e, x = .error e) ↔ ¬ ∃ b, x = .ok b := by
  cases x <;> simp

/-! ### Which errors the parser raises where -/

theorem lineAt_error_shape {lines : List (List Token)} {i : ℤ} {e : PyErr}
    (h : lineAt lines i = .error e) : e = .indexErr := by
  unfold lineAt at h
  split at h
  · cases h
  · injection h with h
    exact h.symm

theorem tokIntAt_error_shape {tks : List Token} {j : ℤ} {e : PyErr}
    (h : tokIntAt tks j = .error e) : e = .indexErr ∨ e = .valueErr := by
  unfold tokIntAt at h
  split at h
  · split at h
    · cases h
    · injection h with h
      exact Or.inr h.symm
  · injection h with h
    exact Or.inl h.symm

theorem tokFloatAt_error_shape {tks : List Token} {j : ℤ} {e : PyErr}
    (h : tokFloatAt tks j = .error e) : e = .indexErr ∨ e = .valueErr := by
  unfold tokFloatAt at h
  split at h
  · split at h
    · cases h
    · injection h with h
      exact Or.inr h.symm
  · injection h with h
    exact Or.inl h.symm

theorem parseHeader_error_shape {lines : List (List Token)} {e : PyErr}
    (h : parseHeader lines = .error e) : e = .indexErr ∨ e = .valueErr := by
  unfold parseHeader at h
  rcases bind_error_inv h with h1 | ⟨l0, _, h⟩
  · exact Or.inl (lineAt_error_shape h1)
  rcases bind_error_inv h with h1 | ⟨a, _, h⟩
  · exact tokIntAt_error_shape h1
  rcases bind_error_inv h with h1 | ⟨b, _, h⟩
  · exact tokIntAt_error_shape h1
  rcases bind_error_inv h with h1 | ⟨c, _, h⟩
  · exact tokIntAt_error_shape h1
  rcases bind_error_inv h with h1 | ⟨d, _, h⟩
  · exact tokIntAt_error_shape h1
  cases h

theorem parseDepotAt_error_shape {lines : List (List Token)} {i : ℤ} {e : PyErr}
    (h : parseDepotAt lines i = .error e) : e = .indexErr ∨ e = .valueErr := by
  unfold parseDepotAt at h
  rcases bind_error_inv h with h1 | ⟨l, _, h⟩
  · exact Or.inl (lineAt_error_shape h1)
  rcases bind_error_inv h with h1 | ⟨a, _, h⟩
  · exact tokIntAt_error_shape h1
  rcases bind_error_inv h with h1 | ⟨b, _, h⟩
  · exact tokIntAt_error_shape h1
  cases h

theorem parseCoordAt_error_shape {lines : List (List Token)} {i : ℤ} {e : PyErr}
    (h : parseCoordAt lines i = .error e) : e = .indexErr ∨ e = .valueErr := by
  unfold parseCoordAt at h
  split at h
  · rcases bind_error_inv h with h1 | ⟨l, _, h⟩
    · exact Or.inl (lineAt_error_shape h1)
    rcases bind_error_inv h with h1 | ⟨a, _, h⟩
    · exact tokIntAt_error_shape h1
    rcases bind_error_inv h with h1 | ⟨x, _, h⟩
    · exact tokFloatAt_error_shape h1
    rcases bind_error_inv h with h1 | ⟨y, _, h⟩
    · exact tokFloatAt_error_shape h1
    cases h
  · cases h

theorem parseCustomerAt_error_inv {lines : List (List Token)} {hasTW : Bool}
    {di : List (ℤ × ℤ)} {i : ℤ} {e : PyErr}
    (h : parseCustomerAt lines hasTW di i = .error e) :
    (∃ n, e = .lineMissing i n) ∨ e = .indexErr ∨
      ∃ tks, pyGet lines i = some tks ∧
        (e = .lineShort i tks ∨ e = .lineFormat i tks) := by
  unfold parseCustomerAt at h
  split at h
  · injection h with h
    exact Or.inl ⟨lines.length, h.symm⟩
  · split at h
    · injection h with h
      exact Or.inr (Or.inl h.symm)
    · next tks heq =>
      split at h
      · injection h with h
        exact Or.inr (Or.inr ⟨tks, heq, Or.inl h.symm⟩)
      · split at h
        · cases h
        · injection h with h
          exact Or.inr (Or.inr ⟨tks, heq, Or.inr h.symm⟩)

theorem parseStage_lineErr_inv {lines : List (List Token)} {i : ℤ} {tks : List Token} {e : PyErr}
    (hps : parseStage lines = .error e)
    (he : e = .lineShort i tks ∨ e = .lineFormat i tks) :
    pyGet lines i = some tks := by
  have hnot : ∀ e', e' = PyErr.indexErr ∨ e' = PyErr.valueErr →
      e' ≠ e := by
    rintro e' (rfl | rfl) hc <;> rcases he with he | he <;> rw [he] at hc <;> cases hc
  unfold parseStage at hps
  rcases bind_error_inv hps with h1 | ⟨v, hv, hps⟩
  · exact absurd rfl (hnot e (parseHeader_error_shape h1))
  obtain ⟨vt, nv, nc, nd⟩ := v
  rcases bind_error_inv hps with h1 | ⟨di, hdi, hps⟩
  · obtain ⟨x, _, hx⟩ := exMapM_error_inv _ _ _ h1
    exact absurd rfl (hnot e (parseDepotAt_error_shape hx))
  rcases bind_error_inv hps with h1 | ⟨cs, hcs, hps⟩
  · obtain ⟨x, _, hx⟩ := exMapM_error_inv _ _ _ h1
    rcases parseCustomerAt_error_inv hx with ⟨n, h2⟩ | h2 | ⟨tks', hget, h3⟩
    · rcases he with he | he <;> rw [he] at h2 <;> cases h2
    · rcases he with he | he <;> rw [he] at h2 <;> cases h2
    · rcases h3 with h4 | h4 <;> rcases he with he | he <;> rw [he] at h4
      · injection h4 with hi htks
        rw [← hi, ← htks] at hget
        exact hget
      · cases h4
      · cases h4
      · injection h4 with hi htks
        rw [← hi, ← htks] at hget
        exact hget
  rcases bind_error_inv hps with h1 | ⟨rs, hrs, hps⟩
  · obtain ⟨x, _, hx⟩ := exMapM_error_inv _ _ _ h1
    exact absurd rfl (hnot e (parseCoordAt_error_shape hx))
  · cases hps

/-! ### The claims -/

/-- C1 (amended): after the capacity clamp, every output customer satisfies
`deliveryQty + pickupQty ≤ smallestVehicleCapacity` OR its `pickupQty` was
clamped to the floor value `1` (which happens exactly when the delivery
quantity alone already reaches the capacity, so the claimed bound cannot be
met without reducing the delivery quantity, which the script never does). -/
theorem C1_capacity_clamp_amended (lines : List (List Token)) (rng : RNG)
    (pd : ParsedData) (doc : InstanceDoc) (cap : ℚ)
    (hp : parseStage lines = .ok pd)
    (hcap : smallestVehicleCapacity pd.depotInfo = .ok cap)
    (ht : transform_instance_to_json lines rng = .ok doc)
    (i : ℕ) (c : Customer) (oc : OutCustomer)
    (hc : pd.customers[i]? = some c)
    (hoc : doc.customers[i]? = some oc) :
    (oc.deliveryQuantity : ℚ) + (oc.pickupQuantity : ℚ) ≤ cap ∨ oc.pickupQuantity = 1 := by
  rw [output_customer_eq hp hcap ht hc hoc]
  exact clamp_bound (avgDemand pd.customers) cap (c, categoryOf (rng.getD i 0))
    (rng.getD (pd.customers.length + i) 0)

theorem C1_capacity_clamp_witness :
    ((exDoc1.customers.getD 0 default).deliveryQuantity : ℚ) +
        ((exDoc1.customers.getD 0 default).pickupQuantity : ℚ) ≤ 1 ∨
      (exDoc1.customers.getD 0 default).pickupQuantity = 1 :=
  C1_capacity_clamp_amended exInput1 exRng1 exPd1 exDoc1 1 (by decide) (by decide) (by decide)
    0 (exPd1.customers.getD 0 cDflt) (exDoc1.customers.getD 0 default) (by decide) (by decide)

/-- C1 as stated is false: on `exInput1` the single depot has base capacity
4, so the smallest vehicle capacity is `4 × 0.25 = 1`, and the single
customer (demand 2, category A) ends with `deliveryQty = 2, pickupQty = 1`:
`2 + 1 = 3 > 1` even after the clamp. -/
theorem C1_capacity_clamp_counterexample :
    transform_instance_to_json exInput1 exRng1 = Except.ok exDoc1 ∧
    parseStage exInput1 = Except.ok exPd1 ∧
    smallestVehicleCapacity exPd1.depotInfo = Except.ok 1 ∧
    ¬ (((exDoc1.customers.getD 0 default).deliveryQuantity : ℚ) +
        ((exDoc1.customers.getD 0 default).pickupQuantity : ℚ) ≤ 1) := by
  refine ⟨by decide, by decide, by decide, by decide⟩

/-- C2: for every output customer, the window start is the parsed window
start; the window end equals the repair `if start + total > end then
ceil(start + total) else end` applied to the un-rounded total service time;
and in the output `start + TotalServiceTime ≤ end` holds (with the emitted,
rounded total). -/
theorem C2_time_window_repair (lines : List (List Token)) (rng : RNG)
    (pd : ParsedData) (doc : InstanceDoc) (cap : ℚ)
    (hp : parseStage lines = .ok pd)
    (hcap : smallestVehicleCapacity pd.depotInfo = .ok cap)
    (ht : transform_instance_to_json lines rng = .ok doc)
    (i : ℕ) (c : Customer) (oc : OutCustomer)
    (hc : pd.customers[i]? = some c)
    (hoc : doc.customers[i]? = some oc) :
    oc.twStart = c.tw_start ∧
    oc.twEnd = repairEnd c.tw_start c.tw_end
      (augOne (avgDemand pd.customers) cap c (rng.getD i 0)
        (rng.getD (pd.customers.length + i) 0)).rawTotal ∧
    (oc.twStart : ℚ) + oc.TotalServiceTime ≤ (oc.twEnd : ℚ) := by
  rw [output_customer_eq hp hcap ht hc hoc]
  exact ⟨rfl, rfl, tw_invariant c.tw_start c.tw_end _⟩

theorem C2_time_window_repair_witness :
    (exDoc1.customers.getD 0 default).twStart = (exPd1.customers.getD 0 cDflt).tw_start ∧
    (exDoc1.customers.getD 0 default).twEnd =
      repairEnd (exPd1.customers.getD 0 cDflt).tw_start (exPd1.customers.getD 0 cDflt).tw_end
        (augOne (avgDemand exPd1.customers) 1 (exPd1.customers.getD 0 cDflt)
          (exRng1.getD 0 0) (exRng1.getD (exPd1.customers.length + 0) 0)).rawTotal ∧
    ((exDoc1.customers.getD 0 default).twStart : ℚ) +
        (exDoc1.customers.getD 0 default).TotalServiceTime ≤
      ((exDoc1.customers.getD 0 default).twEnd : ℚ) :=
  C2_time_window_repair exInput1 exRng1 exPd1 exDoc1 1 (by decide) (by decide) (by decide)
    0 (exPd1.customers.getD 0 cDflt) (exDoc1.customers.getD 0 default) (by decide) (by decide)

/-- C3: every output customer of category C has `deliveryQty = 0` and
`pickupQty ∈ [1,3]`, also after the capacity clamp. -/
theorem C3_category_C_quantities (lines : List (List Token)) (rng : RNG)
    (pd : ParsedData) (doc : InstanceDoc) (cap : ℚ)
    (hp : parseStage lines = .ok pd)
    (hcap : smallestVehicleCapacity pd.depotInfo = .ok cap)
    (ht : transform_instance_to_json lines rng = .ok doc)
    (hv : ValidRNG rng)
    (i : ℕ) (c : Customer) (oc : OutCustomer)
    (hc : pd.customers[i]? = some c)
    (hoc : doc.customers[i]? = some oc)
    (hcat : oc.category = .C) :
    oc.deliveryQuantity = 0 ∧ 1 ≤ oc.pickupQuantity ∧ oc.pickupQuantity ≤ 3 := by
  have heq := output_customer_eq hp hcap ht hc hoc
  subst heq
  obtain ⟨hu0, hu1⟩ := validRNG_getD hv (pd.customers.length + i)
  exact quantifyOne_catC (avgDemand pd.customers) cap (c, categoryOf (rng.getD i 0))
    (rng.getD (pd.customers.length + i) 0) hu0 hu1 hcat

theorem C3_category_C_quantities_witness :
    (exDocC.customers.getD 0 default).deliveryQuantity = 0 ∧
    1 ≤ (exDocC.customers.getD 0 default).pickupQuantity ∧
    (exDocC.customers.getD 0 default).pickupQuantity ≤ 3 :=
  C3_category_C_quantities exInputC exRngC exPdC exDocC 25 (by decide) (by decide) (by decide)
    (by decide) 0 (exPdC.customers.getD 0 cDflt) (exDocC.customers.getD 0 default)
    (by decide) (by decide) (by decide)

/-- C4 (amended): parsing fails exactly when the input is not token-level
well formed — the claim's three triggers (missing required lines, a
customer line with fewer than 5 tokens, a required token failing numeric
conversion) must be extended with header, depot and depot-coordinate lines
that are present but lack required tokens, and (for non-type-6 headers)
a zero-depot header with at least one customer.  Customer-line failures
carry the offending line index and its raw tokens, and when parsing fails
the transformation returns an error, so no document is produced and no
output file is written. -/
theorem C4_parse_failure_amended (lines : List (List Token)) :
    ((∃ e, parseStage lines = .error e) ↔ wellFormedB lines = false) ∧
    (∀ (i : ℤ) (tks : List Token), parseStage lines = .error (.lineShort i tks) ∨
        parseStage lines = .error (.lineFormat i tks) →
      pyGet lines i = some tks) ∧
    (∀ (rng : RNG) (doc : InstanceDoc), wellFormedB lines = false →
      transform_instance_to_json lines rng ≠ .ok doc) := by
  refine ⟨?_, ?_, ?_⟩
  · rw [except_error_iff_not_ok, parseStage_ok_iff]
    cases wellFormedB lines <;> simp
  · intro i tks h
    rcases h with h | h
    · exact parseStage_lineErr_inv h (Or.inl rfl)
    · exact parseStage_lineErr_inv h (Or.inr rfl)
  · intro rng doc hwf ht
    have h1 : ∃ pd, parseStage lines = .ok pd := by
      obtain ⟨pd, cap, hp, _, _⟩ := transform_ok_inv ht
      exact ⟨pd, hp⟩
    rw [parseStage_ok_iff] at h1
    rw [h1] at hwf
    cases hwf

theorem C4_parse_failure_witness :
    pyGet exInput4c 2 = some [tInt 1, tInt 0, tInt 0, tBad, tInt 5, tInt 0, tInt 100] ∧
    transform_instance_to_json exInput4 [] ≠ Except.ok default :=
  ⟨(C4_parse_failure_amended exInput4c).2.1 2 [tInt 1, tInt 0, tInt 0, tBad, tInt 5, tInt 0, tInt 100]
      (Or.inr (by decide)),
   (C4_parse_failure_amended exInput4).2.2 [] default (by decide)⟩

/-- C4 as stated is false: a depot line with a single token makes parsing
fail (an uncaught `IndexError`), yet none of the claim's three
`MalformedInstance` triggers holds — the line exists, it is not a customer
line, and every token that is present converts. -/
theorem C4_parse_failure_counterexample :
    parseStage exInput4 = Except.error PyErr.indexErr ∧
    claimedMalformedB exInput4 = false := by
  exact ⟨by decide, by decide⟩

/-- C5: every emitted depot pairs the `i`-th depot coordinate with the
`i`-th depot record; its `vehicles` list is exactly the 4 vehicle-class
templates in template order with `capacity = floor(base × factor)`, the
`"unlimited"` count sentinel, and the depot's route duration; for a
non-negative base capacity the capacities are non-decreasing. -/
theorem C5_depot_vehicles (lines : List (List Token)) (rng : RNG)
    (pd : ParsedData) (doc : InstanceDoc) (cap : ℚ)
    (hp : parseStage lines = .ok pd)
    (hcap : smallestVehicleCapacity pd.depotInfo = .ok cap)
    (ht : transform_instance_to_json lines rng = .ok doc)
    (i : ℕ) (d : OutDepot)
    (hd : doc.depots[i]? = some d) :
    d.vehicles = buildVehicles (pd.depotInfo.getD i (0,0)).1 (pd.depotInfo.getD i (0,0)).2 ∧
    d.maxDuration = (pd.depotInfo.getD i (0,0)).1 ∧
    d.vehicles.length = 4 ∧
    d.vehicles.map (fun v => v.capacity) =
      VEHICLE_CLASSES.map (fun vc => ⌊((pd.depotInfo.getD i (0,0)).2 : ℚ) * vc.capacity_factor⌋) ∧
    d.vehicles.map (fun v => v.count) = ["unlimited", "unlimited", "unlimited", "unlimited"] ∧
    d.vehicles.map (fun v => v.maxDuration) =
      [d.maxDuration, d.maxDuration, d.maxDuration, d.maxDuration] ∧
    (0 ≤ (pd.depotInfo.getD i (0,0)).2 →
      List.Chain' (· ≤ ·) (d.vehicles.map (fun v => v.capacity))) := by
  have hdg := depots_get? hp hcap ht i
  rw [hd] at hdg
  cases hco : pd.depotCoords[i]? with
  | none => rw [hco] at hdg; cases hdg
  | some co =>
    rw [hco] at hdg
    simp only [Option.map_some'] at hdg
    injection hdg with hdg
    subst hdg
    refine ⟨rfl, rfl, by rw [buildVehicles_eq]; rfl, by rw [buildVehicles_eq]; rfl,
      by rw [buildVehicles_eq]; rfl, by rw [buildVehicles_eq]; rfl, ?_⟩
    intro hb
    exact buildVehicles_mono _ _ hb

theorem C5_depot_vehicles_witness :
    (exDoc1.depots.getD 0 default).vehicles =
      buildVehicles (exPd1.depotInfo.getD 0 (0,0)).1 (exPd1.depotInfo.getD 0 (0,0)).2 ∧
    (exDoc1.depots.getD 0 default).maxDuration = (exPd1.depotInfo.getD 0 (0,0)).1 ∧
    (exDoc1.depots.getD 0 default).vehicles.length = 4 ∧
    (exDoc1.depots.getD 0 default).vehicles.map (fun v => v.capacity) =
      VEHICLE_CLASSES.map (fun vc => ⌊((exPd1.depotInfo.getD 0 (0,0)).2 : ℚ) * vc.capacity_factor⌋) ∧
    (exDoc1.depots.getD 0 default).vehicles.map (fun v => v.count) =
      ["unlimited", "unlimited", "unlimited", "unlimited"] ∧
    (exDoc1.depots.getD 0 default).vehicles.map (fun v => v.maxDuration) =
      [(exDoc1.depots.getD 0 default).maxDuration, (exDoc1.depots.getD 0 default).maxDuration,
       (exDoc1.depots.getD 0 default).maxDuration, (exDoc1.depots.getD 0 default).maxDuration] ∧
    (0 ≤ (exPd1.depotInfo.getD 0 (0,0)).2 →
      List.Chain' (· ≤ ·) ((exDoc1.depots.getD 0 default).vehicles.map (fun v => v.capacity))) :=
  C5_depot_vehicles exInput1 exRng1 exPd1 exDoc1 1 (by decide) (by decide) (by decide)
    0 (exDoc1.depots.getD 0 default) (by decide)

/-- C6 (amended): the draws are NOT interleaved per customer; they occur in
two passes over the customers in input order — the categorization of
customer `i` consumes draw `i`, and its quantity synthesis consumes draw
`n + i` (where `n` is the customer count), one draw per customer per
randomized field. -/
theorem C6_draw_order_amended (lines : List (List Token)) (rng : RNG)
    (pd : ParsedData) (doc : InstanceDoc) (cap : ℚ)
    (hp : parseStage lines = .ok pd)
    (hcap : smallestVehicleCapacity pd.depotInfo = .ok cap)
    (ht : transform_instance_to_json lines rng = .ok doc)
    (i : ℕ) (c : Customer)
    (hc : pd.customers[i]? = some c) :
    doc.customers[i]? = some (outOf (serviceOne (quantifyOne (avgDemand pd.customers) cap
      (c, categoryOf (rng.getD i 0)) (rng.getD (pd.customers.length + i) 0)))) := by
  have hcg := customers_get? hp hcap ht i
  rw [hc] at hcg
  simpa [augOne] using hcg

theorem C6_draw_order_witness :
    exDoc6.customers[1]? = some (outOf (serviceOne (quantifyOne (avgDemand exPd6.customers) 25
      ((exPd6.customers.getD 1 cDflt), categoryOf (exRng6.getD 1 0))
      (exRng6.getD (exPd6.customers.length + 1) 0)))) :=
  C6_draw_order_amended exInput6 exRng6 exPd6 exDoc6 25 (by decide) (by decide) (by decide)
    1 (exPd6.customers.getD 1 cDflt) (by decide)

/-- C6 as stated is false: with the stream `[0.5, 0, 0.95, 0.5]` on a
two-customer instance, the script (two passes) gives customer 2 the
categorization draw `0` (category A), while the claimed per-customer
interleaving would give it the draw `0.95` (category C); the two documents
differ. -/
theorem C6_draw_order_counterexample :
    transform_instance_to_json exInput6 exRng6 = Except.ok exDoc6 ∧
    transformInterleaved exInput6 exRng6 = Except.ok exDoc6i ∧
    exDoc6 ≠ exDoc6i := by
  refine ⟨by decide, by decide, by decide⟩

/-- C7 (amended): for every successfully parsed instance whose header
customer count is non-negative and whose parsed demands are all
non-negative, the three category counts sum to `customerCount`, both
quantity totals are non-negative, and the ratio field is
`round(100 × totalPickup / totalDelivery, 1)` with the `"N/A"` sentinel
exactly when `totalDelivery = 0`.  (For negative demands the totals can be
negative and the sentinel fires for every `totalDelivery ≤ 0`.) -/
theorem C7_statistics_amended (lines : List (List Token)) (rng : RNG)
    (pd : ParsedData) (doc : InstanceDoc) (cap : ℚ)
    (hp : parseStage lines = .ok pd)
    (hcap : smallestVehicleCapacity pd.depotInfo = .ok cap)
    (ht : transform_instance_to_json lines rng = .ok doc)
    (hv : ValidRNG rng)
    (hnc : 0 ≤ pd.numCustomers)
    (hdem : ∀ c ∈ pd.customers, 0 ≤ c.demand) :
    (doc.metadata.statistics.nb_DeliveryWithLowReturn : ℤ) +
      (doc.metadata.statistics.nb_DeliveryWithSignificantReturn : ℤ) +
      (doc.metadata.statistics.nb_ReturnOnly : ℤ) = doc.metadata.customerCount ∧
    0 ≤ doc.metadata.statistics.totalDeliveryQuantity ∧
    0 ≤ doc.metadata.statistics.totalPickupQuantity ∧
    doc.metadata.statistics.pickupToDeliveryRatio =
      (if doc.metadata.statistics.totalDeliveryQuantity = 0 then none
       else some (pyRound1 ((doc.metadata.statistics.totalPickupQuantity : ℚ) /
         (doc.metadata.statistics.totalDeliveryQuantity : ℚ) * 100))) := by
  obtain ⟨hcc, hstats, _, _⟩ := doc_shape hp hcap ht
  rw [hstats, hcc]
  have hdel : 0 ≤ ((pipelineSCs pd rng cap).map (fun s => s.delivery_qty)).sum := by
    apply List.sum_nonneg
    intro x hx
    obtain ⟨sc, hsc, rfl⟩ := List.mem_map.mp hx
    obtain ⟨j, c, hcj, rfl⟩ := pipelineSCs_mem hsc
    exact quantifyOne_delivery_nonneg (avgDemand pd.customers) cap
      (c, categoryOf (rng.getD j 0)) (rng.getD (pd.customers.length + j) 0)
      (hdem c (List.getElem?_mem hcj))
  have hpick : 0 ≤ ((pipelineSCs pd rng cap).map (fun s => s.pickup_qty)).sum := by
    apply List.sum_nonneg
    intro x hx
    obtain ⟨sc, hsc, rfl⟩ := List.mem_map.mp hx
    obtain ⟨j, c, hcj, rfl⟩ := pipelineSCs_mem hsc
    obtain ⟨hu0, hu1⟩ := validRNG_getD hv (pd.customers.length + j)
    exact quantifyOne_pickup_nonneg (avgDemand pd.customers) cap
      (c, categoryOf (rng.getD j 0)) (rng.getD (pd.customers.length + j) 0)
      hu0 hu1 (hdem c (List.getElem?_mem hcj))
  have hb1 : (buildStats (pipelineSCs pd rng cap)).totalDeliveryQuantity =
      ((pipelineSCs pd rng cap).map (fun s => s.delivery_qty)).sum := rfl
  have hb2 : (buildStats (pipelineSCs pd rng cap)).totalPickupQuantity =
      ((pipelineSCs pd rng cap).map (fun s => s.pickup_qty)).sum := rfl
  refine ⟨?_, by rw [hb1]; exact hdel, by rw [hb2]; exact hpick, ?_⟩
  · have hsum := categoryCount_sum (pipelineSCs pd rng cap)
    have hlen : (pipelineSCs pd rng cap).length = pd.customers.length :=
      pipelineSCs_length pd rng cap
    have hlen2 := (parseStage_lengths hp).2.1
    have hb4 : (buildStats (pipelineSCs pd rng cap)).nb_DeliveryWithLowReturn =
        categoryCount .A (pipelineSCs pd rng cap) := rfl
    have hb5 : (buildStats (pipelineSCs pd rng cap)).nb_DeliveryWithSignificantReturn =
        categoryCount .B (pipelineSCs pd rng cap) := rfl
    have hb6 : (buildStats (pipelineSCs pd rng cap)).nb_ReturnOnly =
        categoryCount .C (pipelineSCs pd rng cap) := rfl
    rw [hb4, hb5, hb6]
    omega
  · have hb3 : (buildStats (pipelineSCs pd rng cap)).pickupToDeliveryRatio =
        (if 0 < ((pipelineSCs pd rng cap).map (fun s => s.delivery_qty)).sum then
          some (pyRound1 (((((pipelineSCs pd rng cap).map (fun s => s.pickup_qty)).sum : ℤ) : ℚ) /
            (((((pipelineSCs pd rng cap).map (fun s => s.delivery_qty)).sum : ℤ) : ℚ)) * 100))
        else none) := rfl
    rw [hb1, hb2, hb3]
    by_cases h0 : ((pipelineSCs pd rng cap).map (fun s => s.delivery_qty)).sum = 0
    · rw [if_neg (by omega), if_pos h0]
    · rw [if_pos (by omega), if_neg h0]

theorem C7_statistics_witness :
    (exDoc6.metadata.statistics.nb_DeliveryWithLowReturn : ℤ) +
      (exDoc6.metadata.statistics.nb_DeliveryWithSignificantReturn : ℤ) +
      (exDoc6.metadata.statistics.nb_ReturnOnly : ℤ) = exDoc6.metadata.customerCount ∧
    0 ≤ exDoc6.metadata.statistics.totalDeliveryQuantity ∧
    0 ≤ exDoc6.metadata.statistics.totalPickupQuantity ∧
    exDoc6.metadata.statistics.pickupToDeliveryRatio =
      (if exDoc6.metadata.statistics.totalDeliveryQuantity = 0 then none
       else some (pyRound1 ((exDoc6.metadata.statistics.totalPickupQuantity : ℚ) /
         (exDoc6.metadata.statistics.totalDeliveryQuantity : ℚ) * 100))) :=
  C7_statistics_amended exInput6 exRng6 exPd6 exDoc6 25 (by decide) (by decide) (by decide)
    (by decide) (by decide) (by decide)

/-- C7 as stated is false: a successfully parsed instance with demand `-5`
yields `totalDeliveryQuantity = -5 < 0`, and the `"N/A"` sentinel fires even
though `totalDelivery ≠ 0` (the script tests `totalDelivery > 0`, not
`= 0`). -/
theorem C7_statistics_counterexample :
    transform_instance_to_json exInput7 exRng7 = Except.ok exDoc7 ∧
    exDoc7.metadata.statistics.totalDeliveryQuantity = -5 ∧
    ¬ (0 ≤ exDoc7.metadata.statistics.totalDeliveryQuantity) ∧
    exDoc7.metadata.statistics.totalDeliveryQuantity ≠ 0 ∧
    exDoc7.metadata.statistics.pickupToDeliveryRatio = none := by
  refine ⟨by decide, by decide, by decide, by decide, by decide⟩

/-- C8 (amended): each emitted service time is the one-decimal rounding of
its un-rounded counterpart, and `TotalServiceTime` is the rounding of the
un-rounded SUM `deliveryServiceTime + pickupServiceTime`; the claimed
equation over the three emitted (rounded) values does not hold in
general. -/
theorem C8_service_time_rounding_amended (lines : List (List Token)) (rng : RNG)
    (pd : ParsedData) (doc : InstanceDoc) (cap : ℚ)
    (hp : parseStage lines = .ok pd)
    (hcap : smallestVehicleCapacity pd.depotInfo = .ok cap)
    (ht : transform_instance_to_json lines rng = .ok doc)
    (i : ℕ) (c : Customer) (oc : OutCustomer)
    (hc : pd.customers[i]? = some c)
    (hoc : doc.customers[i]? = some oc) :
    oc.deliveryServiceTime =
      pyRound1 (serviceSplit c.service_time oc.deliveryQuantity oc.pickupQuantity).1 ∧
    oc.pickupServiceTime =
      pyRound1 (serviceSplit c.service_time oc.deliveryQuantity oc.pickupQuantity).2 ∧
    oc.TotalServiceTime =
      pyRound1 ((serviceSplit c.service_time oc.deliveryQuantity oc.pickupQuantity).1 +
        (serviceSplit c.service_time oc.deliveryQuantity oc.pickupQuantity).2) := by
  rw [output_customer_eq hp hcap ht hc hoc]
  exact ⟨rfl, rfl, rfl⟩

theorem C8_service_time_rounding_witness :
    (exDoc1.customers.getD 0 default).deliveryServiceTime =
      pyRound1 (serviceSplit (exPd1.customers.getD 0 cDflt).service_time
        (exDoc1.customers.getD 0 default).deliveryQuantity
        (exDoc1.customers.getD 0 default).pickupQuantity).1 ∧
    (exDoc1.customers.getD 0 default).pickupServiceTime =
      pyRound1 (serviceSplit (exPd1.customers.getD 0 cDflt).service_time
        (exDoc1.customers.getD 0 default).deliveryQuantity
        (exDoc1.customers.getD 0 default).pickupQuantity).2 ∧
    (exDoc1.customers.getD 0 default).TotalServiceTime =
      pyRound1 ((serviceSplit (exPd1.customers.getD 0 cDflt).service_time
        (exDoc1.customers.getD 0 default).deliveryQuantity
        (exDoc1.customers.getD 0 default).pickupQuantity).1 +
        (serviceSplit (exPd1.customers.getD 0 cDflt).service_time
          (exDoc1.customers.getD 0 default).deliveryQuantity
          (exDoc1.customers.getD 0 default).pickupQuantity).2) :=
  C8_service_time_rounding_amended exInput1 exRng1 exPd1 exDoc1 1 (by decide) (by decide)
    (by decide) 0 (exPd1.customers.getD 0 cDflt) (exDoc1.customers.getD 0 default)
    (by decide) (by decide)

/-- C8 as stated is false: with service time `10.03`, delivery 2, pickup 1,
the emitted values are `TotalServiceTime = 10.5`, `deliveryServiceTime =
6.4`, `pickupServiceTime = 4.2`, and `6.4 + 4.2 = 10.6 ≠ 10.5`: the total is
the rounding of the un-rounded sum, not the sum of the rounded parts. -/
theorem C8_service_time_rounding_counterexample :
    transform_instance_to_json exInput8 exRng8 = Except.ok exDoc8 ∧
    (exDoc8.customers.getD 0 default).TotalServiceTime = 21/2 ∧
    (exDoc8.customers.getD 0 default).deliveryServiceTime = 32/5 ∧
    (exDoc8.customers.getD 0 default).pickupServiceTime = 21/5 ∧
    (exDoc8.customers.getD 0 default).TotalServiceTime ≠
      (exDoc8.customers.getD 0 default).deliveryServiceTime +
        (exDoc8.customers.getD 0 default).pickupServiceTime := by
  refine ⟨by decide, by decide, by decide, by decide, by decide⟩

/-- C9: the transformation is a pure function of the input text and the
seeded random stream — two runs from the same seed state over the same
input produce the same document. -/
theorem C9_deterministic (lines : List (List Token)) (r1 r2 : RNG) (h : r1 = r2) :
    transform_instance_to_json lines r1 = transform_instance_to_json lines r2 := by
  rw [h]

theorem C9_deterministic_witness :
    transform_instance_to_json exInput1 exRng1 = transform_instance_to_json exInput1 exRng1 :=
  C9_deterministic exInput1 exRng1 exRng1 rfl

/-- C10: every output customer with original demand `≥ 1`, and every
category-C customer, has `pickupQuantity ≥ 1`; `pickupQuantity = 0` occurs
only for a category A or B customer whose parsed demand is `≤ 0`. -/
theorem C10_pickup_positivity (lines : List (List Token)) (rng : RNG)
    (pd : ParsedData) (doc : InstanceDoc) (cap : ℚ)
    (hp : parseStage lines = .ok pd)
    (hcap : smallestVehicleCapacity pd.depotInfo = .ok cap)
    (ht : transform_instance_to_json lines rng = .ok doc)
    (hv : ValidRNG rng)
    (i : ℕ) (c : Customer) (oc : OutCustomer)
    (hc : pd.customers[i]? = some c)
    (hoc : doc.customers[i]? = some oc) :
    (1 ≤ c.demand → 1 ≤ oc.pickupQuantity) ∧
    (oc.category = .C → 1 ≤ oc.pickupQuantity) ∧
    (oc.pickupQuantity = 0 → (oc.category = .A ∨ oc.category = .B) ∧ c.demand ≤ 0) := by
  have heq := output_customer_eq hp hcap ht hc hoc
  subst heq
  obtain ⟨hu0, hu1⟩ := validRNG_getD hv (pd.customers.length + i)
  refine ⟨?_, ?_, ?_⟩
  · intro hdem
    exact quantifyOne_pickup_pos _ _ _ _ hu0 hu1 (Or.inl hdem)
  · intro hcat
    exact quantifyOne_pickup_pos _ _ _ _ hu0 hu1 (Or.inr hcat)
  · intro hz
    exact quantifyOne_pickup_zero _ _ _ _ hu0 hu1 hz

theorem C10_pickup_positivity_witness :
    (1 ≤ (exPd1.customers.getD 0 cDflt).demand →
      1 ≤ (exDoc1.customers.getD 0 default).pickupQuantity) ∧
    ((exDoc1.customers.getD 0 default).category = .C →
      1 ≤ (exDoc1.customers.getD 0 default).pickupQuantity) ∧
    ((exDoc1.customers.getD 0 default).pickupQuantity = 0 →
      ((exDoc1.customers.getD 0 default).category = .A ∨
        (exDoc1.customers.getD 0 default).category = .B) ∧
      (exPd1.customers.getD 0 cDflt).demand ≤ 0) :=
  C10_pickup_positivity exInput1 exRng1 exPd1 exDoc1 1 (by decide) (by decide) (by decide)
    (by decide) 0 (exPd1.customers.getD 0 cDflt) (exDoc1.customers.getD 0 default)
    (by decide) (by decide)

end MDHF
